import Mathlib

/-!
Verification of the text-generation fallback orchestrator of the f3-hub-app
repository (pre-blast / backblast generation with retry, error
classification, timed fallback to deterministic templates, and output
normalization).

The development is a shallow embedding of the relevant TypeScript sources:

  * src/src/services/geminiService.ts        (error classification, retry loop,
                                              generateBackblast wrapper)
  * src/src/components/BackblastGeneratorView.tsx
                                             (view-layer retry loop, emoji
                                              normalization, roster formatting,
                                              no-AI template formatter,
                                              handleGenerateAI orchestration)
  * src/unnamed/part_000                     (pre-blast view: AI-output
                                              normalization, no-AI formatters,
                                              handleGenerateAI orchestration)

Modelling conventions:

  * Text is `List Char`.  JavaScript strings are UTF-16 sequences; every code
    point that appears in this development is either ASCII or a single
    supplementary-plane emoji, and the only place where UTF-16 code units are
    observable (the seed hash, which uses charCodeAt) converts to code units
    explicitly.
  * Wall-clock time (Date.now) is a rational number threaded explicitly; an
    awaited setTimeout of w milliseconds advances the clock by exactly w, and
    each external call advances it by a caller-chosen duration.  JavaScript
    float arithmetic on the involved quantities is modelled exactly in the
    rationals.
  * Code that can throw is modelled in `Except`; a JavaScript identifier
    occurrence that has no binding in any enclosing scope evaluates to a
    thrown ReferenceError, which is modelled by an explicit error value.
  * The environment guards of the service wrappers (missing VITE_GEMINI_API_KEY
    and missing aoId) are not modelled: the orchestration claims concern runs
    in which the external call is actually attempted, i.e. both are present.
-/

namespace F3

abbrev Chars := List Char

/-- The JavaScript whitespace class (the set matched by the regex class \s and
trimmed by String.prototype.trim). -/
def jsSpace (c : Char) : Bool :=
  (c = ' ') || (c = '\t') || (c = '\n') || (c = '\r') ||
  (c.toNat = 0x0B) || (c.toNat = 0x0C) || (c.toNat = 0xA0) ||
  (c.toNat = 0x1680) || (0x2000 ≤ c.toNat && c.toNat ≤ 0x200A) ||
  (c.toNat = 0x2028) || (c.toNat = 0x2029) || (c.toNat = 0x202F) ||
  (c.toNat = 0x205F) || (c.toNat = 0x3000) || (c.toNat = 0xFEFF)

/-- String.prototype.toLowerCase, restricted to the ASCII range (every string
that the sources lower-case and then inspect is compared against ASCII
needles; non-ASCII characters are left unchanged, which agrees with
toLowerCase on every character occurring in this development). -/
def toLowerJs (c : Char) : Char :=
  if 'A' ≤ c && c ≤ 'Z' then Char.ofNat (c.toNat + 32) else c

def lowerStr (l : Chars) : Chars := l.map toLowerJs

/-- String.prototype.trim. -/
def jsTrim (l : Chars) : Chars :=
  ((l.dropWhile jsSpace).reverse.dropWhile jsSpace).reverse

/-- Case-insensitive literal-match: if the lower-cased input starts with the
lower-cased pattern, return the rest of the input. -/
def ciPfx : Chars → Chars → Option Chars
  | [], l => some l
  | _ :: _, [] => none
  | p :: ps, c :: cs => if toLowerJs c = toLowerJs p then ciPfx ps cs else none

/-- Case-sensitive literal-match returning the rest of the input. -/
def exPfx : Chars → Chars → Option Chars
  | [], l => some l
  | _ :: _, [] => none
  | p :: ps, c :: cs => if c = p then exPfx ps cs else none

/-- String.prototype.includes (exact substring test). -/
def hasSub (n : Chars) : Chars → Bool
  | [] => n.isEmpty
  | c :: t => (exPfx n (c :: t)).isSome || hasSub n t

/-- Split on the newline character, keeping empty segments
(String.prototype.split with separator newline). -/
def splitNl : Chars → List Chars
  | [] => [[]]
  | c :: t =>
    if c = '\n' then [] :: splitNl t
    else
      match splitNl t with
      | [] => [[c]]
      | l :: ls => (c :: l) :: ls

/-- Array.prototype.join with separator newline. -/
def joinNl (ls : List Chars) : Chars := List.intercalate ['\n'] ls

/-- The UTF-16 code units of a string, as read by charCodeAt. -/
def utf16Units (l : Chars) : List Nat :=
  l.flatMap (fun c =>
    if c.toNat < 0x10000 then [c.toNat]
    else [0xD800 + (c.toNat - 0x10000) / 0x400, 0xDC00 + (c.toNat - 0x10000) % 0x400])

/-- hashSeed from BackblastGeneratorView.tsx lines 78-85 and part_000 lines
64-71: h = (h * 31 + s.charCodeAt(i)) >>> 0 over the code units. -/
def hashSeed (l : Chars) : Nat :=
  (utf16Units l).foldl (fun h u => (h * 31 + u) % 4294967296) 0

/-- pickFrom (BackblastGeneratorView.tsx lines 87-91, part_000 lines 73-77). -/
def pickFrom (options : List Chars) (seed salt : Chars) : Chars :=
  if options.isEmpty then []
  else options.getD (hashSeed (seed ++ ':' :: salt) % options.length) []

/-! ### Error model and transient/permanent classification -/

/-- An error thrown by the external generation client, as observed by the
classifiers: an optional HTTP-like status (the first defined of err.status and
err.response.status) and a message string. -/
structure GemErr where
  status : Option Nat
  message : Chars
deriving DecidableEq

/-- normalizeErr (geminiService.ts lines 103-111): the message falls back to
the literal "Unknown Gemini error" when every message source is falsy. -/
def normalizeErrMsg (e : GemErr) : Chars :=
  if e.message = [] then "Unknown Gemini error".data else e.message

/-- isRetryable (geminiService.ts lines 113-129). -/
def isRetryable (e : GemErr) : Bool :=
  let msg := lowerStr (normalizeErrMsg e)
  (e.status = some 429) || (e.status = some 503) ||
  hasSub "429".data msg || hasSub "503".data msg ||
  hasSub "rate".data msg || hasSub "quota".data msg ||
  hasSub "resource exhausted".data msg || hasSub "overload".data msg ||
  hasSub "unavailable".data msg || hasSub "temporarily".data msg

/-- Modelled from the spec (section 4.1, Error classification): transient if
the status code is 429 or 503, or the lowercased message contains one of the
eight listed substrings.  This is the second definition for the refinement
comparison of claim C3; it is written from the specification text, not from
the code. -/
def specTransient (e : GemErr) : Bool :=
  let msg := lowerStr e.message
  (e.status = some 429) || (e.status = some 503) ||
  hasSub "429".data msg || hasSub "503".data msg ||
  hasSub "rate".data msg || hasSub "quota".data msg ||
  hasSub "resource exhausted".data msg || hasSub "overload".data msg ||
  hasSub "unavailable".data msg || hasSub "temporarily".data msg

/-- The transient test of the view-layer retry loop generateWithRetry
(BackblastGeneratorView.tsx lines 3044-3054). -/
def viewTransient (e : GemErr) : Bool :=
  let msg := lowerStr e.message
  hasSub "overload".data msg || hasSub "quota".data msg ||
  hasSub "429".data msg || hasSub "503".data msg ||
  (e.status = some 429) || (e.status = some 503)

/-! ### The retry loops, with an explicit clock

An external-call behavior assigns to the k-th call (counting every call made
during one user action, across both retry layers) either a success with a
text and a duration or a thrown error with a duration.  Waiting w milliseconds
advances the clock by exactly w. -/

inductive ExtResult
  | ok (text : Chars) (dur : ℚ)
  | err (e : GemErr) (dur : ℚ)

abbrev ExtBehavior := Nat → ExtResult

instance : DecidableEq (Except GemErr Chars)
  | .ok a, .ok b => decidable_of_iff (a = b) (by simp)
  | .ok _, .error _ => .isFalse (by simp)
  | .error _, .ok _ => .isFalse (by simp)
  | .error e, .error f => decidable_of_iff (e = f) (by simp)

/-- The outcome of a (possibly retried) call sequence: the value returned or
error thrown, the clock at exit, and the start times of the external calls
that were made, in order. -/
structure RunOut where
  res : Except GemErr Chars
  now : ℚ
  trace : List ℚ
deriving DecidableEq

/-- Math.min over the exactly modelled number line (spelled out so that the
kernel can evaluate it on closed rationals). -/
def qmin (a b : ℚ) : ℚ := if a ≤ b then a else b

theorem qmin_eq (a b : ℚ) : qmin a b = min a b := by
  unfold qmin
  split
  · exact (min_eq_left (by assumption)).symm
  · exact (min_eq_right (le_of_not_le (by assumption))).symm

/-- The error thrown after the service retry loop exits without success
(geminiService.ts line 165). -/
def exhaustErr : GemErr :=
  ⟨none, "Gemini retry limit reached (overload/rate-limit).".data⟩

/-- The backoff of the service retry loop (geminiService.ts line 151):
Math.min(2000 * Math.pow(1.6, attempt), 20000). -/
def svcBackoff (attempt : Nat) : ℚ :=
  qmin (2000 * (8 / 5 : ℚ) ^ attempt) 20000

/-- The delay actually awaited by the service retry loop at a given attempt
and elapsed time (geminiService.ts lines 151-153): the backoff clamped to the
remaining budget maxTotalMs - elapsed. -/
def svcWait (attempt : Nat) (elapsed : ℚ) : ℚ :=
  qmin (svcBackoff attempt) (60000 - elapsed)

/-- Modelled from the spec (section 4.1 step 3d and claim C5): delay =
min(BASE_DELAY * 1.6 ^ attempt, 20000), clamped further to the remaining time
budget MAX_TOTAL_MS - elapsed.  Written from the specification text for the
refinement comparison of claim C5. -/
def specDelay (baseDelay : ℚ) (attempt : Nat) (elapsed : ℚ) : ℚ :=
  qmin (qmin (baseDelay * (8 / 5 : ℚ) ^ attempt) 20000) (60000 - elapsed)

/-- retryGeminiCall (geminiService.ts lines 134-166), as a fuel-indexed loop.
fuel = maxRetries - attempt, so the loop guard attempt < maxRetries is
fuel > 0; the loop body calls fn, rethrows non-retryable errors, breaks when
elapsed >= maxTotalMs (which lands on the same throw after the loop), and
otherwise awaits the clamped backoff and increments attempt. -/
def svcGo (ext : ExtBehavior) (start : ℚ) : Nat → Nat → Nat → ℚ → RunOut
  | 0, _, _, t => ⟨.error exhaustErr, t, []⟩
  | fuel + 1, attempt, k, t =>
    match ext k with
    | .ok s d => ⟨.ok s, t + d, [t]⟩
    | .err e d =>
      let t1 := t + d
      if isRetryable e = false then ⟨.error e, t1, [t]⟩
      else
        let elapsed := t1 - start
        if 60000 ≤ elapsed then ⟨.error exhaustErr, t1, [t]⟩
        else
          let o := svcGo ext start fuel (attempt + 1) (k + 1) (t1 + svcWait attempt elapsed)
          ⟨o.res, o.now, t :: o.trace⟩

/-- retryGeminiCall entry: maxRetries = 10, startedAt = the clock at entry. -/
def retryGeminiCall (ext : ExtBehavior) (k : Nat) (t : ℚ) : RunOut :=
  svcGo ext t 10 0 k t

/-- The error thrown by generateBackblast when the external service resolves
with empty or whitespace-only text (geminiService.ts line 769). -/
def emptyTextErr : GemErr :=
  ⟨none, "Gemini returned empty text for backblast.".data⟩

/-- generateBackblast (geminiService.ts lines 498-771), reduced to its
control flow around the external call: retryGeminiCall on the model call,
then (response?.text ?? "").trim() with a throw on empty text.  Prompt
construction is pure string assembly and does not affect the retry or
fallback behavior. -/
def generateBackblast (ext : ExtBehavior) (k : Nat) (t : ℚ) : RunOut :=
  let o := retryGeminiCall ext k t
  match o.res with
  | .ok s =>
    let s1 := jsTrim s
    if s1 = [] then ⟨.error emptyTextErr, o.now, o.trace⟩ else ⟨.ok s1, o.now, o.trace⟩
  | .error _ => o

/-- The error thrown after the view retry loop exits
(BackblastGeneratorView.tsx line 3067); unreachable, because the loop always
throws at attempt = maxRetries. -/
def unexpectedErr : GemErr := ⟨none, "Unexpected retry failure".data⟩

/-- The delay of the view retry loop (BackblastGeneratorView.tsx line 3059):
Math.min(baseDelayMs * Math.pow(2, attempt), 20000) with baseDelayMs = 1000. -/
def viewBackoff (attempt : Nat) : ℚ :=
  qmin (1000 * (2 : ℚ) ^ attempt) 20000

/-- The delay actually awaited by the view retry loop
(BackblastGeneratorView.tsx lines 3059-3061): the backoff clamped to the
remaining budget. -/
def viewWait (attempt : Nat) (elapsed : ℚ) : ℚ :=
  qmin (viewBackoff attempt) (60000 - elapsed)

/-- generateWithRetry (BackblastGeneratorView.tsx lines 3028-3068): a second
retry loop around generateBackblast, attempt = 1..10; on a caught error it
rethrows when the error is not view-transient, or attempt = maxRetries, or
elapsed >= maxTotalMs, and otherwise waits the clamped delay and retries. -/
def viewGo (ext : ExtBehavior) (start : ℚ) : Nat → Nat → Nat → ℚ → RunOut
  | 0, _, _, t => ⟨.error unexpectedErr, t, []⟩
  | fuel + 1, attempt, k, t =>
    let o := generateBackblast ext k t
    match o.res with
    | .ok _ => o
    | .error e =>
      let elapsed := o.now - start
      if viewTransient e = false ∨ attempt = 10 ∨ 60000 ≤ elapsed then o
      else
        let o2 := viewGo ext start fuel (attempt + 1) (k + o.trace.length)
          (o.now + viewWait attempt elapsed)
        ⟨o2.res, o2.now, o.trace ++ o2.trace⟩

/-- generateWithRetry entry: maxRetries = 10, attempt starts at 1, startedAt =
the clock at entry. -/
def generateWithRetry (ext : ExtBehavior) (t : ℚ) : RunOut :=
  viewGo ext t 10 1 0 t

/-! ### Roster model, attendee name rendering, PAX counting -/

/-- A standard-layout roster entry (PaxAttendance). -/
structure Pax where
  name : Chars
  bd : Bool
  dd : Bool
  td : Bool
  bigfoot : Bool
  starsky : Bool
deriving DecidableEq

/-- A Jurassic Park run/ruck sub-group entry (JpPaxRunRuck). -/
structure JpRunRuck where
  name : Chars
  bd : Bool
  dd : Bool
  td : Bool
  bigfoot : Bool
  starsky : Bool
  lead : Bool
deriving DecidableEq

/-- A Jurassic Park MPC sub-group entry (JpPaxMpc). -/
structure JpMpc where
  name : Chars
  dd : Bool
  td : Bool
  bigfoot : Bool
  starsky : Bool
deriving DecidableEq

/-- The mutable PAX directory override (constants.ts lines 141-157), as the
ambient mapping from F3 names to Band names. -/
abbrev BandDir := Chars → Option Chars

/-- compactOptionalString (BackblastGeneratorView.tsx line 355). -/
def compactOptionalString (s : Chars) : Chars := jsTrim s

/-- stripAt (BackblastGeneratorView.tsx line 359 and part_000 line 52):
trim, then remove the leading run of at-signs. -/
def stripAt (n : Chars) : Chars := (jsTrim n).dropWhile (· = '@')

/-- getBandNameForF3Name (constants.ts lines 152-157). -/
def getBandNameForF3Name (dir : BandDir) (name : Chars) : Chars :=
  let clean := jsTrim name
  if clean = [] then []
  else
    match dir clean with
    | some m => if m = [] then clean else m
    | none => clean

/-- addAt (BackblastGeneratorView.tsx lines 360-364): strip the at-sign, map
through the Band-name directory, re-add one at-sign; empty names render
empty. -/
def addAt (dir : BandDir) (s : Chars) : Chars :=
  let n := stripAt s
  if n = [] then [] else '@' :: getBandNameForF3Name dir n

/-- formatPaxNameWithExtras (BackblastGeneratorView.tsx lines 365-374). -/
def formatPaxNameWithExtras (dir : BandDir) (p : Pax) : Chars :=
  let base := addAt dir p.name
  if p.bigfoot then base ++ " [Bigfoot]".data else base

/-- The starsky section selector of formatPaxSectionStandard
(BackblastGeneratorView.tsx lines 2311-2313). -/
def starskySel (pax : List Pax) : List Pax := pax.filter (fun p => p.starsky)

/-- The TD section selector (lines 2314-2316): td and not starsky. -/
def tdSel (pax : List Pax) : List Pax :=
  pax.filter (fun p => p.td && !p.starsky)

/-- The DD section selector (lines 2317-2319): dd, not td, not starsky. -/
def ddSel (pax : List Pax) : List Pax :=
  pax.filter (fun p => p.dd && !p.td && !p.starsky)

/-- The BD section selector (lines 2320-2322): bd and no higher tier, not
starsky. -/
def bdSel (pax : List Pax) : List Pax :=
  pax.filter (fun p => p.bd && !p.dd && !p.td && !p.starsky)

/-- formatPaxSectionStandard (BackblastGeneratorView.tsx lines 2310-2330). -/
def formatPaxSectionStandard (dir : BandDir) (pax : List Pax) : Chars :=
  let starsky := (starskySel pax).map (fun p => addAt dir p.name)
  let td := (tdSel pax).map (formatPaxNameWithExtras dir)
  let dd := (ddSel pax).map (formatPaxNameWithExtras dir)
  let bd := (bdSel pax).map (formatPaxNameWithExtras dir)
  let l1 := if td.isEmpty then [] else td.map (fun n => n ++ " [TD]".data)
  let l2 := if dd.isEmpty then [] else dd.map (fun n => n ++ " [DD]".data)
  let l3 := if bd.isEmpty then [] else bd
  let l4 := if starsky.isEmpty then [] else starsky.map (fun n => n ++ " [Starsky]".data)
  joinNl (l1 ++ l2 ++ l3 ++ l4)

/-- countStandardTotal (BackblastGeneratorView.tsx lines 2516-2517): entries
whose stripped name is truthy (non-empty) and which are not starsky. -/
def countStandardTotal (pax : List Pax) : Nat :=
  (pax.filter (fun p => !(stripAt p.name).isEmpty && !p.starsky)).length

/-- The name cleaning of countJpTotal (BackblastGeneratorView.tsx lines
2506-2509): stripAt, trim, toLowerCase. -/
def cleanJpName (n : Chars) : Chars := lowerStr (jsTrim (stripAt n))

/-- countJpTotal (BackblastGeneratorView.tsx lines 2504-2514): the size of
the set of non-empty cleaned names over the non-starsky entries of the three
sub-groups (a JavaScript Set counts distinct insertions). -/
def countJpTotal (run ruck : List JpRunRuck) (mpc : List JpMpc) : Nat :=
  ((((run.filter (fun p => !p.starsky)).map (fun p => cleanJpName p.name)) ++
    ((ruck.filter (fun p => !p.starsky)).map (fun p => cleanJpName p.name)) ++
    ((mpc.filter (fun p => !p.starsky)).map (fun p => cleanJpName p.name))).filter
      (fun n => !n.isEmpty)).dedup.length

/-- The PAX total of the service-layer generateBackblast (geminiService.ts
line 589): all entries of the received roster that are not starsky. -/
def svcTotalPax (pax : List Pax) : Nat :=
  (pax.filter (fun p => !p.starsky)).length

/-! ### Emoji rotation and hashtags (backblast view) -/

def EMOJI_ROTATION_ao : List Chars := ["📍".data, "🧭".data, "🗺️".data, "📌".data]
def EMOJI_ROTATION_date : List Chars := ["📅".data, "🗓️".data, "⏰".data, "⌚".data]
def EMOJI_ROTATION_q : List Chars := ["🎩".data, "💪".data, "🧢".data, "🛡️".data]
def EMOJI_ROTATION_pax : List Chars := ["👥".data, "🫶".data, "🤝".data, "🏋️".data]
def EMOJI_ROTATION_disclaimer : List Chars := ["🚨".data, "⚠️".data, "🚧".data]
def EMOJI_ROTATION_count : List Chars := ["🔢".data, "🧮".data, "📊".data]

/-- shouldUseEmojis (BackblastGeneratorView.tsx lines 96-106): seeded
percentage roll, 70 percent for the compass AO, 40 otherwise; forced off by
forceNoEmojis or minimalEmojis. -/
def shouldUseEmojisBB (seed : Chars) (forceNoEmojis minimalEmojis : Bool)
    (aoId : Chars) : Bool :=
  if forceNoEmojis || minimalEmojis then false
  else
    let n := hashSeed (seed ++ ":emoji".data) % 100
    let pct : Nat := if aoId = "compass".data then 70 else 40
    n < pct

structure EmojiMap where
  ao : Chars
  date : Chars
  q : Chars
  pax : Chars
  disclaimer : Chars
  count : Chars

/-- buildEmojiMap (BackblastGeneratorView.tsx lines 108-127). -/
def buildEmojiMap (seed : Chars) (useEmojis : Bool) : EmojiMap :=
  if !useEmojis then ⟨[], [], [], [], [], []⟩
  else
    ⟨pickFrom EMOJI_ROTATION_ao seed "ao".data,
     pickFrom EMOJI_ROTATION_date seed "date".data,
     pickFrom EMOJI_ROTATION_q seed "q".data,
     pickFrom EMOJI_ROTATION_pax seed "pax".data,
     pickFrom EMOJI_ROTATION_disclaimer seed "disclaimer".data,
     pickFrom EMOJI_ROTATION_count seed "count".data⟩

/-- The seen-set filter shared by both buildHashtags variants: keep a tag when
its key is non-empty and not seen before; the key of the backblast-view
variant is toLowerCase then trim. -/
def filterSeenBB : List Chars → List Chars → List Chars
  | _, [] => []
  | seen, t :: ts =>
    let key := jsTrim (lowerStr t)
    if key = [] ∨ key ∈ seen then filterSeenBB seen ts
    else t :: filterSeenBB (key :: seen) ts

/-- buildHashtags (BackblastGeneratorView.tsx lines 215-240).  The
Date-parsing helper isFridayFromDateString is environment dependent
(JavaScript Date parsing); its value on the workout date is passed in as
isFri. -/
def buildHashtagsBB (aoHashtags : List Chars) (isPre : Bool) (aoId : Chars)
    (isFri : Bool) : List Chars :=
  let extra := if isPre then ["#preblast".data] else ["#backblast".data]
  let extraAoTags :=
    (if aoId = "thehill".data ∧ isFri then ["#hillybillyshuffle".data] else []) ++
    (if aoId = "theshadows".data ∧ ¬isPre then ["#backblastshadows".data] else [])
  filterSeenBB [] (aoHashtags ++ extra ++ extraAoTags)

def joinSpace (ls : List Chars) : Chars := List.intercalate [' '] ls

/-! ### Exercise and Thang formatting (backblast view) -/

structure Exercise where
  name : Chars
  reps : Chars
  cadence : Chars
deriving DecidableEq

structure WorkoutRound where
  name : Chars
  exercises : List Exercise
  timerSeconds : Nat
  timerRepeatCount : Nat
  description : Chars
deriving DecidableEq

/-- formatExercise (BackblastGeneratorView.tsx lines 2259-2264). -/
def formatExercise (e : Exercise) : Chars :=
  ("• ".data ++ (if e.name = [] then "TBD".data else e.name)) ++
  (if e.reps = [] then [] else " x".data ++ e.reps) ++
  (if e.cadence = [] then [] else " (".data ++ e.cadence ++ ")".data)

/-- The per-round body of formatThang (BackblastGeneratorView.tsx lines
2274-2305); i is the zero-based round index. -/
def formatThangRound (i : Nat) (r : WorkoutRound) : Chars :=
  let totalSeconds := r.timerSeconds
  let mins := totalSeconds / 60
  let secs := totalSeconds % 60
  let timeLabel :=
    if totalSeconds > 0 then
      ((Nat.repr mins).data ++ " minutes".data) ++
      (if secs > 0 then " ".data ++ (Nat.repr secs).data ++ " seconds".data else []) ++
      (if r.timerRepeatCount > 1 then
        " × ".data ++ (Nat.repr r.timerRepeatCount).data ++ " rounds".data else [])
    else []
  let rName := if r.name = [] then "Round ".data ++ (Nat.repr (i + 1)).data else r.name
  let title :=
    if timeLabel = [] then "**".data ++ rName ++ "**".data
    else "**".data ++ rName ++ "** — ".data ++ timeLabel
  let descRaw := if compactOptionalString r.description = [] then [] else jsTrim r.description
  let exercises := joinNl (r.exercises.map formatExercise)
  if exercises = [] ∧ descRaw ≠ [] then descRaw
  else
    let desc := if descRaw = [] then [] else descRaw ++ ['\n']
    let body := if exercises = [] then "As called by the Q.".data else exercises
    title ++ '\n' :: (desc ++ body)

/-- formatThang (BackblastGeneratorView.tsx lines 2266-2307). -/
def formatThang (rounds : List WorkoutRound) : Chars :=
  let cleaned := rounds.filter
    (fun r => !r.exercises.isEmpty || !(compactOptionalString r.description).isEmpty)
  if cleaned.isEmpty then "A glorious beatdown ensued.".data
  else List.intercalate "\n\n".data (cleaned.enum.map (fun p => formatThangRound p.1 p.2))

/-! ### The no-AI backblast formatter (standard layout) -/

/-- The ambient component state read by formatBackblastNoAI_Standard beyond
its argument object: the active AO configuration (id, hashtags, display
label), the minimal-emoji AI option, the committed workout date together with
the value of the environment-dependent isFridayFromDateString on it, and the
PAX directory override. -/
structure BbAmbient where
  aoId : Chars
  aoHashtags : List Chars
  backblastAoLabel : Chars
  minimalEmojis : Bool
  longDate : Chars
  longDateIsFriday : Bool
  dir : BandDir

/-- forceNoEmojis (BackblastGeneratorView.tsx line 1053). -/
def bbForceNoEmojis (amb : BbAmbient) : Bool := amb.aoId = "theshadows".data

/-- The argument object of formatBackblastNoAI_Standard
(BackblastGeneratorView.tsx lines 2519-2530). -/
structure BbNoAiArgs where
  qName : Chars
  longDate : Chars
  workoutTime : Chars
  pax : List Pax
  warmup : List Exercise
  warmupDescription : Chars
  thang : List WorkoutRound
  announcements : Chars
  taps : Chars
  styleSeed : Chars
  useEmojis : Bool

/-- formatBackblastNoAI_Standard (BackblastGeneratorView.tsx lines
2519-2598).  The function calls buildStyleSeed() internally (line 2557),
which reads Date.now() and Math.random(); that draw is passed in explicitly
as entropy.  As in the source, the two locals derived from it (lines
2557-2563) are never read afterwards. -/
def formatBackblastNoAI_Standard (amb : BbAmbient) (args : BbNoAiArgs)
    (entropy : Chars) : Chars :=
  let totalPax := (args.pax.filter (fun p => !p.starsky)).length
  let cleanQName := stripAt args.qName
  let paxSection := formatPaxSectionStandard amb.dir args.pax
  let thangSection := formatThang args.thang
  let emoji := buildEmojiMap args.styleSeed args.useEmojis
  let aoLabel := if emoji.ao = [] then "AO".data else emoji.ao ++ "AO".data
  let dateLabel := if emoji.date = [] then "Date/Time".data else emoji.date ++ "Date/Time".data
  let qLabel := if emoji.q = [] then "Q".data else emoji.q ++ "Q".data
  let paxLabel := if emoji.pax = [] then "PAX".data else emoji.pax ++ "PAX".data
  let disclaimerLabel :=
    if emoji.disclaimer = [] then "Disclaimer".data else emoji.disclaimer ++ "Disclaimer".data
  let countLabel :=
    if emoji.count = [] then "Count O Rama".data else emoji.count ++ "Count O Rama".data
  let warmupExercises := joinNl (args.warmup.map formatExercise)
  let warmupLines :=
    (if compactOptionalString args.warmupDescription = [] then []
     else [jsTrim args.warmupDescription, []]) ++
    (if warmupExercises = [] then [] else [warmupExercises])
  let warmupSection := joinNl warmupLines
  let styleSeed0 := entropy
  let useEmojis0 := shouldUseEmojisBB styleSeed0 (bbForceNoEmojis amb) amb.minimalEmojis amb.aoId
  let hashtags := joinSpace (buildHashtagsBB amb.aoHashtags false amb.aoId amb.longDateIsFriday)
  joinNl
    ([hashtags, [],
      "***Q — CLICK “COPY & START POST IN BAND”, THEN REPLACE THIS WITH YOUR MESSAGE***".data,
      [],
      aoLabel ++ ": ".data ++ amb.backblastAoLabel,
      dateLabel ++ ": ".data ++ args.longDate ++ " (".data ++ args.workoutTime ++ ")".data,
      qLabel ++ ": ".data ++ cleanQName,
      paxLabel ++ ": ".data ++ (Nat.repr totalPax).data ++ " Total".data,
      []] ++
     (if paxSection = [] then [] else [paxSection, []]) ++
     [disclaimerLabel ++ " (Standard disclaimer)".data,
      countLabel ++ ": ".data ++ (Nat.repr totalPax).data,
      [],
      "Warmup:".data,
      warmupSection,
      [],
      "The Thang:".data,
      thangSection,
      [],
      "Announcements: ".data ++ (if args.announcements = [] then "None.".data else args.announcements),
      "TAPS: ".data ++ (if args.taps = [] then "None.".data else args.taps)])

/-! ### A replace-all engine for the normalization regexes

String.prototype.replace with the g flag finds non-overlapping matches left
to right in the input and substitutes each; replacement text is not
re-scanned, and with the m flag a caret matches at the string start and
immediately after every newline of the input.  Each regex of the sources is
hand-compiled to a deterministic matcher; a matcher receives whether the
current position is a line start and the remaining input, and returns the
number of consumed characters together with the replacement text.  Matchers
always consume at least one character (none of the compiled patterns can
match the empty string); a zero-length answer is treated as no match. -/

def scanRepAux (m : Bool → Chars → Option (Nat × Chars)) :
    Nat → Bool → Chars → Chars
  | 0, _, l => l
  | _ + 1, _, [] => []
  | fuel + 1, atLS, c :: t =>
    match m atLS (c :: t) with
    | some (n + 1, rep) =>
      rep ++ scanRepAux m fuel ((c :: t).getD n ' ' = '\n') ((c :: t).drop (n + 1))
    | _ => c :: scanRepAux m fuel (c = '\n') t

def scanRep (m : Bool → Chars → Option (Nat × Chars)) (l : Chars) : Chars :=
  scanRepAux m l.length true l

/-- Consume a maximal run of JavaScript whitespace (the regex \s* followed by
a character that whitespace cannot start). -/
def wsStar (l : Chars) : Chars := l.dropWhile jsSpace

/-- Consume a maximal run of whitespace other than carriage return and
newline (the regex class complement of \S, \r and \n). -/
def wsNoNlStar (l : Chars) : Chars :=
  l.dropWhile (fun c => jsSpace c && c ≠ '\r' && c ≠ '\n')

/-- The symbol class of the normalization regexes: the character class
[\p{So}️].  Unicode Symbol-other is modelled on the blocks that cover
every symbol character appearing in this code base (miscellaneous symbols,
dingbats, the emoji planes) together with the handful of So watches and
clocks of the Miscellaneous Technical block, plus the variation selector
FE0F that the class lists explicitly. -/
def soB (c : Char) : Bool :=
  (0x2600 ≤ c.toNat && c.toNat ≤ 0x26FF) ||
  (0x2700 ≤ c.toNat && c.toNat ≤ 0x27BF) ||
  (c.toNat = 0x231A) || (c.toNat = 0x231B) ||
  (0x23E9 ≤ c.toNat && c.toNat ≤ 0x23FA) ||
  (c.toNat = 0x2B50) || (c.toNat = 0x2B55) ||
  (0x1F300 ≤ c.toNat && c.toNat ≤ 0x1F5FF) ||
  (0x1F600 ≤ c.toNat && c.toNat ≤ 0x1F64F) ||
  (0x1F680 ≤ c.toNat && c.toNat ≤ 0x1F6FF) ||
  (0x1F900 ≤ c.toNat && c.toNat ≤ 0x1F9FF) ||
  (0x1FA70 ≤ c.toNat && c.toNat ≤ 0x1FAFF) ||
  (c.toNat = 0xFE0F)

/-- Consume a maximal run of the [\p{So}️] class. -/
def soStar (l : Chars) : Chars := l.dropWhile soB

/-- stripEmojis (part_000 lines 564-565 and BackblastGeneratorView.tsx lines
129-130): remove every character of [\u{1F300}-\u{1FAFF}\u{2600}-\u{27BF}]. -/
def emojiRange (c : Char) : Bool :=
  (0x1F300 ≤ c.toNat && c.toNat ≤ 0x1FAFF) ||
  (0x2600 ≤ c.toNat && c.toNat ≤ 0x27BF)

def stripEmojis (l : Chars) : Chars := l.filter (fun c => !emojiRange c)

/-- The image-line test of stripMarkdownImageLines (part_000 line 569):
whether a whole line matches \s*!\[[^\]]*]\([^)]+\)\s*$ . -/
def isImgLine (l : Chars) : Bool :=
  let r1 := wsStar l
  match exPfx "![".data r1 with
  | none => false
  | some r2 =>
    let r3 := r2.dropWhile (fun c => c ≠ ']')
    match exPfx "](".data r3 with
    | none => false
    | some r4 =>
      let body := r4.takeWhile (fun c => c ≠ ')')
      let r5 := r4.dropWhile (fun c => c ≠ ')')
      if body.isEmpty then false
      else
        match exPfx ")".data r5 with
        | none => false
        | some r6 => (wsStar r6).isEmpty

/-- The second replace of stripMarkdownImageLines: \n{3,} becomes two
newlines (the greedy match consumes a whole newline run of length at least
three).  Implemented as a structural scan tracking the length of the pending
newline run: a run of one or two newlines is kept as is, a run of three or
more is emitted as exactly two. -/
def collapseNlGo : Nat → Chars → Chars
  | k, '\n' :: t => collapseNlGo (k + 1) t
  | k, c :: t => List.replicate (min k 2) '\n' ++ c :: collapseNlGo 0 t
  | k, [] => List.replicate (min k 2) '\n'

def collapseNl (l : Chars) : Chars := collapseNlGo 0 l

/-- stripMarkdownImageLines (part_000 lines 567-571): blank every image
line, collapse runs of three or more newlines to two, trim. -/
def stripMarkdownImageLines (l : Chars) : Chars :=
  jsTrim (collapseNl (joinNl ((splitNl l).map (fun ln => if isImgLine ln then [] else ln))))

/-! ### The hand-compiled matchers of normalizeAiPreblast (part_000 lines
428-562)

Each matcher carries the source regex in its doc comment.  Back-tracking of
the JavaScript engine is resolved as follows: a greedy quantifier followed by
a literal that its class cannot start is a maximal munch; a \s* followed by
\n+ consumes the whitespace run through its last newline; a \s* followed by
(\S) consumes the whitespace run and the next character. -/

/-- The text a prefix of which was consumed between the two rests. -/
def cutTo (l rest : Chars) : Chars := l.take (l.length - rest.length)

/-- replace(/\r\n/g, newline) (part_000 line 435). -/
def replCrLf : Chars → Chars
  | '\r' :: '\n' :: t => '\n' :: replCrLf t
  | c :: t => c :: replCrLf t
  | [] => []

/-- DD or TD followed by a loosely spaced parenthesized comment-below, the
core of /(DD|TD)\s*\(\s*comment\s*below\s*\)/gi (lines 442-444). -/
def cbLoose (lead : Chars) (l : Chars) : Option Chars :=
  (ciPfx lead l).bind fun r1 =>
  (ciPfx "(".data (wsStar r1)).bind fun r2 =>
  (ciPfx "comment".data (wsStar r2)).bind fun r3 =>
  (ciPfx "below".data (wsStar r3)).bind fun r4 =>
  ciPfx ")".data (wsStar r4)

/-- TD\s*\(Comment Below\), the common core of the rules of lines 445-469. -/
def tdCB (l : Chars) : Option Chars :=
  (ciPfx "td".data l).bind fun r1 => ciPfx "(comment below)".data (wsStar r1)

/-- DD\s*\(Comment Below\) (the second capture of line 485). -/
def ddCB (l : Chars) : Option Chars :=
  (ciPfx "dd".data l).bind fun r1 => ciPfx "(comment below)".data (wsStar r1)

/-- Rule 437: /📍\s*WHERE\s*:/gi becomes 📍Where: . -/
def mPinWhere (_ : Bool) (l : Chars) : Option (Nat × Chars) :=
  (ciPfx "📍".data l).bind fun r1 =>
  (ciPfx "where".data (wsStar r1)).bind fun r2 =>
  (ciPfx ":".data (wsStar r2)).map fun r3 =>
  (l.length - r3.length, "📍Where:".data)

/-- Rule 439: /^\s*WHERE\s*:/gim becomes Where: . -/
def mWhereLine (atLS : Bool) (l : Chars) : Option (Nat × Chars) :=
  if !atLS then none else
  (ciPfx "where".data (wsStar l)).bind fun r2 =>
  (ciPfx ":".data (wsStar r2)).map fun r3 =>
  (l.length - r3.length, "Where:".data)

/-- Rule 441: /🎒\s*BRING\s*:/gi becomes 🎒 Bring: . -/
def mBagBring (_ : Bool) (l : Chars) : Option (Nat × Chars) :=
  (ciPfx "🎒".data l).bind fun r1 =>
  (ciPfx "bring".data (wsStar r1)).bind fun r2 =>
  (ciPfx ":".data (wsStar r2)).map fun r3 =>
  (l.length - r3.length, "🎒 Bring:".data)

/-- Rule 442: /DD\s*\(\s*comment\s*below\s*\)/gi becomes DD (Comment Below). -/
def mDdLoose (_ : Bool) (l : Chars) : Option (Nat × Chars) :=
  (cbLoose "dd".data l).map fun r => (l.length - r.length, "DD (Comment Below)".data)

/-- Rules 443 and 444: /TD\s*\(\s*comment\s*below\s*\)/gi (twice, case
variants that the i flag makes identical) becomes TD (Comment Below). -/
def mTdLoose (_ : Bool) (l : Chars) : Option (Nat × Chars) :=
  (cbLoose "td".data l).map fun r => (l.length - r.length, "TD (Comment Below)".data)

/-- Rule 445: /TD\s*\(Comment Below\)\s*\n\s*🎒/gi; the \s*\n\s* pair matches
a whitespace run containing a newline, followed by the bag emoji. -/
def m445 (_ : Bool) (l : Chars) : Option (Nat × Chars) :=
  (tdCB l).bind fun r1 =>
  let w := r1.takeWhile jsSpace
  if '\n' ∈ w then
    (ciPfx "🎒".data (r1.drop w.length)).map fun r =>
      (l.length - r.length, "TD (Comment Below)\n\n🎒".data)
  else none

/-- Rule 446: /TD\s*\(Comment Below\)\s*\n\s*Bring\s*:/gi. -/
def m446 (_ : Bool) (l : Chars) : Option (Nat × Chars) :=
  (tdCB l).bind fun r1 =>
  let w := r1.takeWhile jsSpace
  if '\n' ∈ w then
    (ciPfx "bring".data (r1.drop w.length)).bind fun r2 =>
    (ciPfx ":".data (wsStar r2)).map fun r3 =>
      (l.length - r3.length, "TD (Comment Below)\n\nBring:".data)
  else none

/-- Rule 447: /TD\s*\(Comment Below\)\s*\n+/gi; the quantifier pair consumes
the whitespace run through its last newline. -/
def m447 (_ : Bool) (l : Chars) : Option (Nat × Chars) :=
  (tdCB l).bind fun r1 =>
  let w := r1.takeWhile jsSpace
  let tailLen := (w.reverse.takeWhile (fun c => c ≠ '\n')).length
  if tailLen = w.length then none
  else
    let r := r1.drop (w.length - tailLen)
    some (l.length - r.length, "TD (Comment Below)\n\n".data)

/-- Rule 448: /TD\s*\(Comment Below\)\s*Bring\s*:/gi. -/
def m448 (_ : Bool) (l : Chars) : Option (Nat × Chars) :=
  (tdCB l).bind fun r1 =>
  (ciPfx "bring".data (wsStar r1)).bind fun r2 =>
  (ciPfx ":".data (wsStar r2)).map fun r3 =>
  (l.length - r3.length, "TD (Comment Below)\n\nBring:".data)

/-- Rule 450: /TD\s*\(Comment Below\)\s*\n*(\S)/gi; the quantifiers consume
the whitespace run and the capture is the next (necessarily non-space)
character. -/
def m450 (_ : Bool) (l : Chars) : Option (Nat × Chars) :=
  (tdCB l).bind fun r1 =>
  match wsStar r1 with
  | [] => none
  | c :: r => some (l.length - r.length, "TD (Comment Below)\n\n".data ++ [c])

/-- Rule 453: /TD\s*\(Comment Below\)\s*(Bring\s*:)/gi; the capture is
substituted verbatim. -/
def m453 (_ : Bool) (l : Chars) : Option (Nat × Chars) :=
  (tdCB l).bind fun r1 =>
  let r2 := wsStar r1
  (ciPfx "bring".data r2).bind fun r3 =>
  (ciPfx ":".data (wsStar r3)).map fun r4 =>
  (l.length - r4.length, "TD (Comment Below)\n\n".data ++ cutTo r2 r4)

/-- The optional bag-emoji prefix and Bring\s*: tail shared by the rules of
lines 457-469: (?:🎒\s*)?Bring\s*: . -/
def bringTail (r2 : Chars) : Option Chars :=
  let r2b := match ciPfx "🎒".data r2 with
    | some rb => wsStar rb
    | none => r2
  (ciPfx "bring".data r2b).bind fun r3 => ciPfx ":".data (wsStar r3)

/-- Rule 457: /TD\s*\(Comment Below\)\s*\n+((?:🎒\s*)?Bring\s*:)/gi; the
\s*\n+ pair must exhaust the whitespace run (the group that follows cannot
start with whitespace), so the run must end with a newline. -/
def m457 (_ : Bool) (l : Chars) : Option (Nat × Chars) :=
  (tdCB l).bind fun r1 =>
  let w := r1.takeWhile jsSpace
  if w.getLast? = some '\n' then
    let r2 := r1.drop w.length
    (bringTail r2).map fun r4 =>
      (l.length - r4.length, "TD (Comment Below)\n\n".data ++ cutTo r2 r4)
  else none

/-- Rule 462: /TD\s*\(Comment Below\)\s*(?:\r?\n\s*)+(?:🎒\s*)?Bring\s*:/gi;
the repeated group consumes the whole whitespace run and requires it to start
with an optional carriage return and a newline. -/
def m462 (_ : Bool) (l : Chars) : Option (Nat × Chars) :=
  (tdCB l).bind fun r1 =>
  let w := r1.takeWhile jsSpace
  if w.head? = some '\n' ∨ w.take 2 = ['\r', '\n'] then
    (bringTail (r1.drop w.length)).map fun r4 =>
      (l.length - r4.length, "TD (Comment Below)\n\nBring:".data)
  else none

/-- Rule 466: /TD\s*\(Comment Below\)\s*(?:🎒\s*)?Bring\s*:/gi. -/
def m466 (_ : Bool) (l : Chars) : Option (Nat × Chars) :=
  (tdCB l).bind fun r1 =>
  (bringTail (wsStar r1)).map fun r4 =>
    (l.length - r4.length, "TD (Comment Below)\n\nBring:".data)

/-- The first capture of the rules of lines 471-478 once its lead has been
consumed: the rest of the line, a newline, and then the second capture
parsed from the start of the next line. -/
def qLineThen (l : Chars) (r3 : Chars) (cap2 : Chars → Option (Chars × Chars)) :
    Option (Nat × Chars) :=
  let r4 := r3.dropWhile (fun c => c ≠ '\n')
  match r4 with
  | '\n' :: r5 =>
    (cap2 r5).map fun p =>
      (l.length - p.2.length, cutTo l r4 ++ "\n\n".data ++ p.1)
  | _ => none

/-- 📍\s*LABEL\s*: as the second capture (substituted verbatim). -/
def pinLabelCap (label : Chars) (r5 : Chars) : Option (Chars × Chars) :=
  (ciPfx "📍".data r5).bind fun r6 =>
  (ciPfx label (wsStar r6)).bind fun r7 =>
  (ciPfx ":".data (wsStar r7)).map fun r8 =>
  (cutTo r5 r8, r8)

/-- ^\s*LABEL\s*: as the second capture (the caret holds because it follows
the newline just consumed). -/
def lsLabelCap (label : Chars) (r5 : Chars) : Option (Chars × Chars) :=
  (ciPfx label (wsStar r5)).bind fun r7 =>
  (ciPfx ":".data (wsStar r7)).map fun r8 =>
  (cutTo r5 r8, r8)

/-- Rules 471 and 475: /(💪\s*Q\s*:.*)\n(📍\s*(Where|AO)\s*:)/gi. -/
def mQPinA (label : Chars) (_ : Bool) (l : Chars) : Option (Nat × Chars) :=
  (ciPfx "💪".data l).bind fun r1 =>
  (ciPfx "q".data (wsStar r1)).bind fun r2 =>
  (ciPfx ":".data (wsStar r2)).bind fun r3 =>
  qLineThen l r3 (pinLabelCap label)

/-- Rules 472 and 476: /(💪Q\s*:.*)\n(📍\s*(Where|AO)\s*:)/gi. -/
def mQPinB (label : Chars) (_ : Bool) (l : Chars) : Option (Nat × Chars) :=
  (ciPfx "💪q".data l).bind fun r2 =>
  (ciPfx ":".data (wsStar r2)).bind fun r3 =>
  qLineThen l r3 (pinLabelCap label)

/-- Rules 473 and 477: /(^\s*Q\s*:.*)\n(📍\s*(Where|AO)\s*:)/gim. -/
def mQPinC (label : Chars) (atLS : Bool) (l : Chars) : Option (Nat × Chars) :=
  if !atLS then none else
  (ciPfx "q".data (wsStar l)).bind fun r2 =>
  (ciPfx ":".data (wsStar r2)).bind fun r3 =>
  qLineThen l r3 (pinLabelCap label)

/-- Rules 474 and 478: /(^\s*Q\s*:.*)\n(^\s*(Where|AO)\s*:)/gim. -/
def mQPinD (label : Chars) (atLS : Bool) (l : Chars) : Option (Nat × Chars) :=
  if !atLS then none else
  (ciPfx "q".data (wsStar l)).bind fun r2 =>
  (ciPfx ":".data (wsStar r2)).bind fun r3 =>
  qLineThen l r3 (lsLabelCap label)

/-- Rule 480: /^[^\S\r\n]*[\p{So}️]*\s*Date\/Time:/gimu becomes
Date/Time: . -/
def mDateStray (atLS : Bool) (l : Chars) : Option (Nat × Chars) :=
  if !atLS then none else
  (ciPfx "date/time:".data (wsStar (soStar (wsNoNlStar l)))).map fun r =>
  (l.length - r.length, "Date/Time:".data)

/-- Rule 482: /([^\n])\n(Date\/Time:)/gim; both captures verbatim. -/
def mDatePre (_ : Bool) (l : Chars) : Option (Nat × Chars) :=
  match l with
  | c :: '\n' :: r2 =>
    if c = '\n' then none
    else
      (ciPfx "date/time:".data r2).map fun r3 =>
      (l.length - r3.length, c :: '\n' :: '\n' :: cutTo r2 r3)
  | _ => none

/-- Rule 483: /^(Date\/Time:[^\n]*)(\n*)/gim becomes the first capture
followed by exactly two newlines. -/
def mDateAfter (atLS : Bool) (l : Chars) : Option (Nat × Chars) :=
  if !atLS then none else
  (ciPfx "date/time:".data l).bind fun r1 =>
  let r2 := r1.dropWhile (fun c => c ≠ '\n')
  let r3 := r2.dropWhile (fun c => c = '\n')
  some (l.length - r3.length, cutTo l r2 ++ "\n\n".data)

/-- Rule 484: /^(Date\/Time:[^\n]*)(?:\n+)(DD\s*\(Comment Below\))/gim. -/
def mDateDd (atLS : Bool) (l : Chars) : Option (Nat × Chars) :=
  if !atLS then none else
  (ciPfx "date/time:".data l).bind fun r1 =>
  let r2 := r1.dropWhile (fun c => c ≠ '\n')
  let nls := r2.takeWhile (fun c => c = '\n')
  if nls = [] then none else
  let r3 := r2.drop nls.length
  (ddCB r3).map fun r4 =>
  (l.length - r4.length, cutTo l r2 ++ "\n\n".data ++ cutTo r3 r4)

/-- Rule 489: /^\s*Bring\s*:/gim becomes Bring: . -/
def mBringLine (atLS : Bool) (l : Chars) : Option (Nat × Chars) :=
  if !atLS then none else
  (ciPfx "bring".data (wsStar l)).bind fun r2 =>
  (ciPfx ":".data (wsStar r2)).map fun r3 =>
  (l.length - r3.length, "Bring:".data)

/-- Rule 491: /^\s*Weather\s*:[^\n]*\n?/gim is removed. -/
def mWeather (atLS : Bool) (l : Chars) : Option (Nat × Chars) :=
  if !atLS then none else
  (ciPfx "weather".data (wsStar l)).bind fun r2 =>
  (ciPfx ":".data (wsStar r2)).map fun r3 =>
  let r4 := r3.dropWhile (fun c => c ≠ '\n')
  let r5 := match r4 with
    | '\n' :: r => r
    | r => r
  (l.length - r5.length, [])

/-- Address rule (part_000 line 495): /^\s*(?:📫\s*)?Address\s*:[^\n]*\n?/gim
is removed. -/
def mAddress (atLS : Bool) (l : Chars) : Option (Nat × Chars) :=
  if !atLS then none else
  let r1 := wsStar l
  let r1b := match ciPfx "📫".data r1 with
    | some rb => wsStar rb
    | none => r1
  (ciPfx "address".data r1b).bind fun r2 =>
  (ciPfx ":".data (wsStar r2)).map fun r3 =>
  let r4 := r3.dropWhile (fun c => c ≠ '\n')
  let r5 := match r4 with
    | '\n' :: r => r
    | r => r
  (l.length - r5.length, [])

/-- Address rule (line 496): new RegExp of ^\s* then the escaped address then
\s*$ with flags gim, removed.  The trailing \s*$ stops before the last
newline of the whitespace run that follows the address (or consumes the run
entirely at the end of the string). -/
def mAddrLine (addr : Chars) (atLS : Bool) (l : Chars) : Option (Nat × Chars) :=
  if !atLS then none else
  (ciPfx addr (wsStar l)).bind fun r2 =>
  let w := r2.takeWhile jsSpace
  let rest := r2.drop w.length
  if rest = [] then some (l.length, [])
  else
    let tailLen := (w.reverse.takeWhile (fun c => c ≠ '\n')).length
    if tailLen = w.length then none
    else
      let r3 := r2.drop (w.length - tailLen - 1)
      some (l.length - r3.length, [])

/-- Address rule (lines 499-509): the functional replace of
/^(📍\s*)?(AO|Where)\s*:\s*(.+)$/gim .  The callback trims the third capture;
when that trim is empty (the text after the colon is all whitespace) the
original match is returned, otherwise the line is rebuilt with the trimmed
rest, appending the parenthesized address unless the rest already contains
it case-insensitively. -/
def mAoWhereAddr (addr : Chars) (atLS : Bool) (l : Chars) : Option (Nat × Chars) :=
  if !atLS then none else
  let (p1, pos) := match ciPfx "📍".data l with
    | some r => (cutTo l (wsStar r), wsStar r)
    | none => ([], l)
  let labelRes : Option (Chars × Chars) := match ciPfx "ao".data pos with
    | some r => some (cutTo pos r, r)
    | none => match ciPfx "where".data pos with
      | some r => some (cutTo pos r, r)
      | none => none
  labelRes.bind fun lab =>
  (ciPfx ":".data (wsStar lab.2)).bind fun r2 =>
  let w := r2.takeWhile jsSpace
  let after := r2.drop w.length
  match after with
  | c :: _ =>
    if c = '\n' then
      let tn := (w.reverse.takeWhile (fun x => x = '\n')).length
      if tn = w.length then none
      else
        let r3 := r2.drop (w.length - tn)
        some (l.length - r3.length, cutTo l r3)
    else
      let cap3 := after.takeWhile (fun x => x ≠ '\n')
      let r3 := after.drop cap3.length
      let restStr := jsTrim (cutTo r2 r3)
      some (l.length - r3.length,
        p1 ++ lab.1 ++ ": ".data ++ restStr ++
        (if hasSub (lowerStr addr) (lowerStr restStr) then []
         else " (".data ++ addr ++ ")".data))
  | [] =>
    let tn := (w.reverse.takeWhile (fun x => x = '\n')).length
    if tn = w.length then
      if w = [] then none else some (l.length, cutTo l [])
    else some (l.length, cutTo l [])

/-- Emoji prefix rules (part_000 lines 525-536):
^[^\S\r\n]*[\p{So}️]*\s*LABEL\s*: with flags gim, rebuilt as the prefix
followed by the canonical label and colon. -/
def mLabelPfx (label : Chars) (rep : Chars) (atLS : Bool) (l : Chars) :
    Option (Nat × Chars) :=
  if !atLS then none else
  (ciPfx label (wsStar (soStar (wsNoNlStar l)))).bind fun r1 =>
  (ciPfx ":".data (wsStar r1)).map fun r2 =>
  (l.length - r2.length, rep)

/-- The date variant (lines 529-532) whose label is the alternation
(Date\/Time|Date), rebuilt with the canonical Date/Time label. -/
def mDatePfx (rep : Chars) (atLS : Bool) (l : Chars) : Option (Nat × Chars) :=
  if !atLS then none else
  let pos := wsStar (soStar (wsNoNlStar l))
  let afterLabel := match ciPfx "date/time".data pos with
    | some r => some r
    | none => ciPfx "date".data pos
  afterLabel.bind fun r1 =>
  (ciPfx ":".data (wsStar r1)).map fun r2 =>
  (l.length - r2.length, rep)

/-! ### The DD/TD block rewrite (part_000 lines 79-89 and 538-559) -/

def DDTD_VARIANTS : List Chars :=
  ["DD/TD — drop it in comments".data,
   "DD — comment below\nTD — comment below".data,
   "DD — Comment Below\nTD - Comment Below".data,
   "DD (Comment Below)\nTD (Comment Below)".data,
   "DD/TD - Drop it in the comments".data,
   "DD — comment below\n\nTD — comment below".data]

/-- buildDdTdBlock (part_000 lines 79-89). -/
def buildDdTdBlock (seed : Chars) : Chars :=
  pickFrom DDTD_VARIANTS seed "ddtd".data

def isWordChar (c : Char) : Bool :=
  ('a' ≤ c && c ≤ 'z') || ('A' ≤ c && c ≤ 'Z') || ('0' ≤ c && c ≤ '9') || c = '_'

/-- One alternative of the DD/TD line test followed by a word boundary. -/
def altWordB (pat : Chars) (t : Chars) : Bool :=
  match ciPfx pat t with
  | some [] => true
  | some (c :: _) => !isWordChar c
  | none => false

/-- isDdTdLine (part_000 lines 545-546):
/^\s*(DD|TD|DD\/TD|Double Down|Triple Down)\b/i tested on the trimmed
line. -/
def isDdTdLine (line : Chars) : Bool :=
  let t := jsTrim line
  altWordB "dd".data t || altWordB "td".data t || altWordB "dd/td".data t ||
  altWordB "double down".data t || altWordB "triple down".data t

/-- The kept lines and the insertion index of the DD/TD stage (part_000 lines
548-558): DD/TD-looking lines are removed and the position of the first of
them (as an index into the kept lines) is recorded. -/
def ddtdSplit : List Chars → (List Chars × Option Nat)
  | [] => ([], none)
  | x :: xs =>
    let p := ddtdSplit xs
    if isDdTdLine x then (p.1, some 0)
    else (x :: p.1, p.2.map (· + 1))

/-- The DD/TD variability stage (part_000 lines 538-559). -/
def ddtdStage (seed : Chars) (out : Chars) : Chars :=
  let ddTdBlock := buildDdTdBlock seed
  if ddTdBlock = [] then out
  else
    let p := ddtdSplit (splitNl out)
    match p.2 with
    | some i => joinNl (p.1.take i ++ splitNl ddTdBlock ++ p.1.drop i)
    | none => out

/-! ### normalizeAiPreblast assembly (part_000 lines 428-562) -/

def EMOJI_ROTATION_PRE_date : List Chars :=
  ["🗓️".data, "📅".data, "⏰".data, "⌚".data, "🔢".data]
def EMOJI_ROTATION_PRE_q : List Chars :=
  ["💪".data, "🏋️".data, "🧑‍💪".data, "🧭".data, "🛡️".data]
def EMOJI_ROTATION_PRE_bring : List Chars :=
  ["🎒".data, "🧳".data, "🧢".data, "🧤".data, "🧃".data]

/-- shouldUseEmojis (part_000 lines 97-105): no AO-specific percentage in the
pre-blast view, the threshold is always 40. -/
def shouldUseEmojisPre (seed : Chars) (forceNoEmojis minimalEmojis : Bool) : Bool :=
  if forceNoEmojis || minimalEmojis then false
  else hashSeed (seed ++ ":emoji".data) % 100 < 40

/-- normalizeAiPreblast (part_000 lines 428-562).  The weatherSummary
parameter is unused by the source body and kept for signature fidelity. -/
def normalizeAiPreblast (raw : Chars) (address : Chars) (weatherSummary : Chars)
    (styleSeed : Chars) (useEmojis : Bool) : Chars :=
  let text := replCrLf raw
  let o1 := scanRep mPinWhere text
  let o2 := scanRep mWhereLine o1
  let o3 := scanRep mBagBring o2
  let o4 := scanRep mDdLoose o3
  let o5 := scanRep mTdLoose o4
  let o6 := scanRep mTdLoose o5
  let o7 := scanRep m445 o6
  let o8 := scanRep m446 o7
  let o9 := scanRep m447 o8
  let o10 := scanRep m448 o9
  let o11 := scanRep m450 o10
  let o12 := scanRep m453 o11
  let o13 := scanRep m457 o12
  let o14 := scanRep m462 o13
  let o15 := scanRep m466 o14
  let o16 := scanRep (mQPinA "where".data) o15
  let o17 := scanRep (mQPinB "where".data) o16
  let o18 := scanRep (mQPinC "where".data) o17
  let o19 := scanRep (mQPinD "where".data) o18
  let o20 := scanRep (mQPinA "ao".data) o19
  let o21 := scanRep (mQPinB "ao".data) o20
  let o22 := scanRep (mQPinC "ao".data) o21
  let o23 := scanRep (mQPinD "ao".data) o22
  let o24 := scanRep mDateStray o23
  let o25 := scanRep mDatePre o24
  let o26 := scanRep mDateAfter o25
  let o27 := scanRep mDateDd o26
  let o28 := scanRep mBringLine o27
  let o29 := scanRep mWeather o28
  let addr := jsTrim address
  let o30 :=
    if addr = [] then o29
    else scanRep (mAoWhereAddr addr) (scanRep (mAddrLine addr) (scanRep mAddress o29))
  let qEmoji := if useEmojis then pickFrom EMOJI_ROTATION_PRE_q styleSeed "q".data else []
  let dateEmoji := if useEmojis then pickFrom EMOJI_ROTATION_PRE_date styleSeed "date".data else []
  let bringEmoji := if useEmojis then pickFrom EMOJI_ROTATION_PRE_bring styleSeed "bring".data else []
  let qPfxRep := if useEmojis && !qEmoji.isEmpty then qEmoji ++ [' '] else []
  let datePfxRep := if useEmojis && !dateEmoji.isEmpty then dateEmoji ++ [' '] else []
  let bringPfxRep := if useEmojis && !bringEmoji.isEmpty then bringEmoji ++ [' '] else []
  let o31 := scanRep (mLabelPfx "q".data (qPfxRep ++ "Q:".data)) o30
  let o32 := scanRep (mDatePfx (datePfxRep ++ "Date/Time:".data)) o31
  let o33 := scanRep (mLabelPfx "bring".data (bringPfxRep ++ "Bring:".data)) o32
  ddtdStage styleSeed o33

/-- normalizeBackblastEmojis (BackblastGeneratorView.tsx lines 132-165): with
emojis off, strip the emoji ranges; with emojis on, canonicalize the six
section labels with the seeded emoji prefixes.  Each label rule is
^\s*[\p{So}️]*\s*LABEL\s*: with flags gim (the Disclaimer rule has no
colon and consumes trailing whitespace). -/
def mBbLabel (label : Chars) (rep : Chars) (atLS : Bool) (l : Chars) :
    Option (Nat × Chars) :=
  if !atLS then none else
  (ciPfx label (wsStar (soStar (wsStar l)))).bind fun r1 =>
  (ciPfx ":".data (wsStar r1)).map fun r2 =>
  (l.length - r2.length, rep ++ ":".data)

/-- The Disclaimer rule of normalizeBackblastEmojis (lines 155-158):
^\s*[\p{So}️]*\s*Disclaimer\s* with the trailing whitespace consumed. -/
def mBbDisclaimer (rep : Chars) (atLS : Bool) (l : Chars) :
    Option (Nat × Chars) :=
  if !atLS then none else
  (ciPfx "disclaimer".data (wsStar (soStar (wsStar l)))).map fun r1 =>
  (l.length - (wsStar r1).length, rep)

def normalizeBackblastEmojis (text seed : Chars) (useEmojis : Bool) : Chars :=
  if !useEmojis then stripEmojis text
  else
    let e := buildEmojiMap seed true
    let ao := if e.ao = [] then [] else e.ao ++ [' ']
    let date := if e.date = [] then [] else e.date ++ [' ']
    let q := if e.q = [] then [] else e.q ++ [' ']
    let pax := if e.pax = [] then [] else e.pax ++ [' ']
    let disclaimer := if e.disclaimer = [] then [] else e.disclaimer ++ [' ']
    let count := if e.count = [] then [] else e.count ++ [' ']
    let o1 := scanRep (mBbLabel "ao".data (ao ++ "AO".data)) text
    let o2 := scanRep (mBbLabel "date/time".data (date ++ "Date/Time".data)) o1
    let o3 := scanRep (mBbLabel "q".data (q ++ "Q".data)) o2
    let o4 := scanRep (mBbLabel "pax".data (pax ++ "PAX".data)) o3
    let o5 := scanRep (mBbDisclaimer (disclaimer ++ "Disclaimer".data)) o4
    scanRep (mBbLabel "count o rama".data (count ++ "Count O Rama".data)) o5

/-! ### The pre-blast no-AI formatters and the pre-blast orchestration
(part_000) -/

/-- The seen-set filter of the pre-blast buildHashtags (part_000 lines
372-385): keep a tag when its trim is non-empty and its lower-cased trim has
not been seen. -/
def filterSeenPre : List Chars → List Chars → List Chars
  | _, [] => []
  | seen, t :: ts =>
    let v := jsTrim t
    if v = [] then filterSeenPre seen ts
    else
      let key := lowerStr v
      if key ∈ seen then filterSeenPre seen ts
      else t :: filterSeenPre (key :: seen) ts

/-- buildHashtags (part_000 lines 362-386); the pre-blast list order is the
kind tag, then the AO tags, then the user tags, then the AO-specific extras.
The Date parsing of isFridayFromDateString is environment dependent and its
value on the workout date is passed in as isFri. -/
def buildHashtagsPre (aoHashtags : List Chars) (isPre : Bool) (aoId : Chars)
    (isFri : Bool) (userHashtags : List Chars) : List Chars :=
  let extra := if isPre then ["#preblast".data] else ["#backblast".data]
  let extraAoTags :=
    if aoId = "thehill".data ∧ isFri then ["#hillybillyshuffle".data] else []
  filterSeenPre [] (extra ++ aoHashtags ++ userHashtags ++ extraAoTags)

/-- The ambient pre-blast view state that handleGenerateAI and the no-AI
formatters read: the active AO configuration, the Jurassic Park flag, the
emoji options, the committed form values, and the prepared bring items and
normalized extra hashtags. -/
structure PreCfg where
  isJP : Bool
  forceNoEmojis : Bool
  minimalEmojis : Bool
  aoId : Chars
  displayName : Chars
  whereName : Chars
  address : Chars
  meetingPoint : Chars
  aoHashtags : List Chars
  userHashtags : List Chars
  qDisplayName : Chars
  workoutDate : Chars
  workoutTime : Chars
  workoutDateIsFriday : Bool
  bringItems : List Chars

/-- formatStandardNoAI (part_000 lines 801-876), applied to the view state
that buildNoAiFormattedText passes it. -/
def formatStandardNoAI (cfg : PreCfg) (styleSeed : Chars) (useEmojis : Bool) : Chars :=
  let hashtags := joinSpace
    (buildHashtagsPre cfg.aoHashtags true cfg.aoId cfg.workoutDateIsFriday cfg.userHashtags)
  let whereLine :=
    if cfg.whereName ≠ [] ∧ cfg.whereName ≠ cfg.displayName then
      cfg.displayName ++ " — ".data ++ cfg.whereName
    else cfg.displayName
  let qEmoji := if useEmojis then pickFrom EMOJI_ROTATION_PRE_q styleSeed "q".data else []
  let dateEmoji := if useEmojis then pickFrom EMOJI_ROTATION_PRE_date styleSeed "date".data else []
  let bringEmoji := if useEmojis then pickFrom EMOJI_ROTATION_PRE_bring styleSeed "bring".data else []
  let qPfxStr := if useEmojis && !qEmoji.isEmpty then qEmoji ++ [' '] else []
  let datePfxStr := if useEmojis && !dateEmoji.isEmpty then dateEmoji ++ [' '] else []
  let bringPfxStr := if useEmojis && !bringEmoji.isEmpty then bringEmoji ++ [' '] else []
  let bringLine :=
    if cfg.bringItems ≠ [] then
      bringPfxStr ++ "Bring: ".data ++ List.intercalate ", ".data cfg.bringItems
    else []
  let addrSuffix := if cfg.address ≠ [] then " (".data ++ cfg.address ++ ")".data else []
  let ddTdBlock := buildDdTdBlock styleSeed
  let qClean := stripAt cfg.qDisplayName
  joinNl
    ([hashtags, [],
      "***Q — CLICK “COPY & START POST IN BAND”, THEN REPLACE THIS WITH YOUR OWN CALL TO ACTION MESSAGE***".data,
      [],
      qPfxStr ++ "Q: ".data ++ (if qClean = [] then "TBD".data else qClean),
      [],
      (if useEmojis then "📍 ".data else []) ++ "AO: ".data ++ whereLine ++ addrSuffix] ++
     (if jsTrim cfg.meetingPoint ≠ [] then
        [(if useEmojis then "📌 ".data else []) ++ "Meet: ".data ++ jsTrim cfg.meetingPoint]
      else []) ++
     [[],
      datePfxStr ++ "Date/Time: ".data ++ cfg.workoutDate ++ " (".data ++ cfg.workoutTime ++ ")".data,
      ddTdBlock,
      []] ++
     (if bringLine ≠ [] then [bringLine] else []))

def JP_DEFAULT_MEET : Chars := "Far south end of the parking lot".data

/-- The meet-location default of the Jurassic Park formatters (part_000
lines 651-656): the configured meeting point, unless empty or equal (up to
case and an optional final period) to the stock sentence. -/
def jpMeet (meetingPoint : Chars) : Chars :=
  let meetRaw := jsTrim meetingPoint
  let low := lowerStr meetRaw
  if meetRaw = [] ∨
     low = "meeting point is the far south end of the parking lot".data ∨
     low = "meeting point is the far south end of the parking lot.".data then
    JP_DEFAULT_MEET
  else meetRaw

/-- The fixed schedule block shared by both Jurassic Park formatters
(part_000 lines 685-701 and 777-793). -/
def jpScheduleLines (ddTdBlock : Chars) : List Chars :=
  ["🏃‍♂️ Runners — First Wave".data,
   "6:00 AM step-off".data,
   "6.15 miles".data,
   [],
   "🏃‍♂️ Runners — Second Wave".data,
   "6:35 AM step-off".data,
   "3.0 miles".data,
   "Meet at the land bridge and merge with Wave 1".data,
   [],
   "🎒 Ruckers / Walkers".data,
   "6:00 AM step-off from AO meeting point".data,
   [],
   "🛑 COT & Announcements: 7:15 AM sharp".data,
   "☕ Coffeeteria immediately following".data,
   [],
   "⏰ Early Opportunities".data,
   ddTdBlock]

/-- formatJurassicParkNoAI (part_000 lines 622-704). -/
def formatJurassicParkNoAI (cfg : PreCfg) (styleSeed : Chars) (useEmojis : Bool) : Chars :=
  let hashtags := joinSpace
    (buildHashtagsPre cfg.aoHashtags true cfg.aoId cfg.workoutDateIsFriday cfg.userHashtags)
  let qClean0 := stripAt cfg.qDisplayName
  let qClean := if qClean0 = [] then "TBD".data else qClean0
  let whereLine :=
    if cfg.whereName ≠ [] ∧ cfg.whereName ≠ cfg.displayName then
      cfg.displayName ++ " — ".data ++ cfg.whereName
    else cfg.displayName
  let addrSuffix := if cfg.address ≠ [] then " (".data ++ cfg.address ++ ")".data else []
  let meet := jpMeet cfg.meetingPoint
  let qEmoji := if useEmojis then pickFrom EMOJI_ROTATION_PRE_q styleSeed "q".data else []
  let dateEmoji := if useEmojis then pickFrom EMOJI_ROTATION_PRE_date styleSeed "date".data else []
  let qPfxStr := if useEmojis && !qEmoji.isEmpty then qEmoji ++ [' '] else []
  let datePfxStr := if useEmojis && !dateEmoji.isEmpty then dateEmoji ++ [' '] else []
  let ddTdBlock := buildDdTdBlock styleSeed
  joinNl
    ([hashtags, [],
      "🦖 Jurassic Park Pre-Blast 🦖".data,
      [],
      "***Q — CLICK “COPY & START POST IN BAND”, THEN REPLACE THIS WITH YOUR OWN CALL TO ACTION MESSAGE***".data,
      [],
      qPfxStr ++ "Q: ".data ++ qClean,
      [],
      (if useEmojis then "📍 ".data else []) ++ "AO: ".data ++ whereLine ++ addrSuffix,
      "📌 Meet Location: ".data ++ meet,
      [],
      datePfxStr ++ cfg.workoutDate,
      []] ++ jpScheduleLines ddTdBlock)

def JP_AI_FALLBACKS : List Chars :=
  ["Post up and start Sunday strong—run or ruck with the PAX. All fitness levels welcome. HC below.".data,
   "Bring a friend and get your miles in with the boys. Run or ruck—either way, we roll together. HC below.".data,
   "Sunrise miles and strong fellowship. Show up and put in the work—then lock in COT. HC below.".data]

/-- formatJurassicParkAI (part_000 lines 706-796).  When the extracted AI
message is empty the source draws Math.floor(Math.random() * 3) to pick a
stock hook line; that draw is passed in as rnd. -/
def formatJurassicParkAI (cfg : PreCfg) (styleSeed : Chars) (useEmojis : Bool)
    (aiMessage : Chars) (rnd : Nat) : Chars :=
  let hashtags := joinSpace
    (buildHashtagsPre cfg.aoHashtags true cfg.aoId cfg.workoutDateIsFriday cfg.userHashtags)
  let qClean0 := stripAt cfg.qDisplayName
  let qClean := if qClean0 = [] then "TBD".data else qClean0
  let whereLine :=
    if cfg.whereName ≠ [] ∧ cfg.whereName ≠ cfg.displayName then
      cfg.displayName ++ " — ".data ++ cfg.whereName
    else cfg.displayName
  let addrSuffix := if cfg.address ≠ [] then " (".data ++ cfg.address ++ ")".data else []
  let meet := jpMeet cfg.meetingPoint
  let rawMsg := jsTrim aiMessage
  let msg := if rawMsg = [] then JP_AI_FALLBACKS.getD (rnd % 3) [] else rawMsg
  let qEmoji := if useEmojis then pickFrom EMOJI_ROTATION_PRE_q styleSeed "q".data else []
  let dateEmoji := if useEmojis then pickFrom EMOJI_ROTATION_PRE_date styleSeed "date".data else []
  let qPfxStr := if useEmojis && !qEmoji.isEmpty then qEmoji ++ [' '] else []
  let datePfxStr := if useEmojis && !dateEmoji.isEmpty then dateEmoji ++ [' '] else []
  let ddTdBlock := buildDdTdBlock styleSeed
  joinNl
    ([hashtags, [],
      "🦖 Jurassic Park Pre-Blast 🦖".data,
      [],
      msg,
      [],
      qPfxStr ++ "Q: ".data ++ qClean,
      [],
      (if useEmojis then "📍 ".data else []) ++ "AO: ".data ++ whereLine ++ addrSuffix,
      "📌 Meet Location: ".data ++ meet,
      [],
      datePfxStr ++ cfg.workoutDate,
      []] ++ jpScheduleLines ddTdBlock)

/-- One stop matcher of extractInspirationalMessage (part_000 lines
586-600). -/
def jpStopLine (t : Chars) : Bool :=
  altWordB "#preblast".data t ||
  altWordB "***q".data t ||
  (((ciPfx "💪".data t).bind fun r => (ciPfx "q".data (wsStar r)).bind fun r2 =>
      ciPfx ":".data (wsStar r2)).isSome) ||
  (((ciPfx "💪q".data t).bind fun r2 => ciPfx ":".data (wsStar r2)).isSome) ||
  (((ciPfx "📍".data t).bind fun r =>
      (match ciPfx "ao".data (wsStar r) with
       | some r2 => some r2
       | none => ciPfx "where".data (wsStar r)).bind fun r2 =>
      ciPfx ":".data (wsStar r2)).isSome) ||
  (((ciPfx "📫".data t).bind fun r => (ciPfx "address".data (wsStar r)).bind fun r2 =>
      ciPfx ":".data (wsStar r2)).isSome) ||
  ((ciPfx "📌".data t).elim false fun r => altWordB "meet".data (wsStar r)) ||
  (((ciPfx "🗓️".data t).bind fun r =>
      (match ciPfx "date/time".data (wsStar r) with
       | some r2 => some r2
       | none => ciPfx "date".data (wsStar r)).bind fun r2 =>
      ciPfx ":".data (wsStar r2)).isSome) ||
  (((ciPfx "🎒".data t).bind fun r => (ciPfx "bring".data (wsStar r)).bind fun r2 =>
      ciPfx ":".data (wsStar r2)).isSome) ||
  ((ciPfx "⏰".data t).elim false fun r => altWordB "early opportunities".data (wsStar r)) ||
  ((ciPfx "🛑".data t).elim false fun r => altWordB "cot".data (wsStar r)) ||
  (ciPfx "🏃".data t).isSome ||
  (((ciPfx "🎒".data t).bind fun r => ciPfx "ruckers".data (wsStar r)).isSome)

/-- The blank-deduplicating line accumulation of extractInspirationalMessage
(part_000 lines 602-610). -/
def jpExtractGo : List Chars → List Chars → List Chars
  | acc, [] => acc.reverse
  | acc, line :: rest =>
    if line = [] then
      if acc ≠ [] ∧ acc.head? ≠ some [] then jpExtractGo ([] :: acc) rest
      else jpExtractGo acc rest
    else if jpStopLine line then acc.reverse
    else jpExtractGo (line :: acc) rest

/-- extractInspirationalMessage (part_000 lines 577-613). -/
def extractInspirationalMessage (raw : Chars) : Chars :=
  let text := jsTrim (replCrLf raw)
  if text = [] then []
  else
    let lines0 := (splitNl text).map jsTrim
    let lines1 := (lines0.dropWhile (fun l => l = [])).reverse.dropWhile (fun l => l = [])
    let out := jpExtractGo [] lines1.reverse
    jsTrim (collapseNl (joinNl out))

/-- buildNoAiFormattedText (part_000 lines 1286-1326): derive the emoji roll
from the seed with minimalEmojis hard-coded to false, then dispatch on the
Jurassic Park flag. -/
def buildNoAiFormattedText (cfg : PreCfg) (styleSeed : Chars) : Chars :=
  let useEmojis := shouldUseEmojisPre styleSeed cfg.forceNoEmojis false
  if cfg.isJP then formatJurassicParkNoAI cfg styleSeed useEmojis
  else formatStandardNoAI cfg styleSeed useEmojis

/-! ### The pre-blast orchestration handler (part_000 lines 1329-1453) -/

/-- The empty-response error of generatePreblast (geminiService.ts line
319). -/
def emptyPreTextErr : GemErr :=
  ⟨none, "Gemini returned empty text for preblast.".data⟩

/-- generatePreblast (geminiService.ts lines 209-321), reduced to its control
flow around the external call: retryGeminiCall, then
(response?.text ?? "").trim() with a throw on empty text. -/
def generatePreblastSvc (ext : ExtBehavior) (k : Nat) (t : ℚ) : RunOut :=
  let o := retryGeminiCall ext k t
  match o.res with
  | .ok s =>
    let s1 := jsTrim s
    if s1 = [] then ⟨.error emptyPreTextErr, o.now, o.trace⟩ else ⟨.ok s1, o.now, o.trace⟩
  | .error _ => o

inductive PreOutcome
  | generated (text : Chars)
  | fallback (text : Chars)
deriving DecidableEq

/-- The success-arm text of the pre-blast handleGenerateAI (part_000 lines
1390-1434): conditional emoji stripping on both sides of the normalization,
the Jurassic Park extraction and reformatting on the JP branch. -/
def preGeneratedText (cfg : PreCfg) (styleSeed : Chars) (jpRand : Nat)
    (raw : Chars) : Chars :=
  let useEmojis := shouldUseEmojisPre styleSeed cfg.forceNoEmojis cfg.minimalEmojis
  let cleanedRaw :=
    if cfg.minimalEmojis || cfg.forceNoEmojis || !useEmojis then stripEmojis raw else raw
  if cfg.isJP then
    let msg := extractInspirationalMessage cleanedRaw
    let formatted := formatJurassicParkAI cfg styleSeed useEmojis msg jpRand
    if cfg.forceNoEmojis || !useEmojis then stripEmojis formatted else formatted
  else
    let normalized := normalizeAiPreblast cleanedRaw cfg.address [] styleSeed useEmojis
    stripMarkdownImageLines
      (if cfg.forceNoEmojis || !useEmojis then stripEmojis normalized else normalized)

/-- The catch-arm text of the pre-blast handleGenerateAI (part_000 lines
1439-1448): the fallback is the no-AI template rendered with the same run
seed, image-stripped. -/
def preFallbackText (cfg : PreCfg) (styleSeed : Chars) : Chars :=
  stripMarkdownImageLines (buildNoAiFormattedText cfg styleSeed)

/-- The post-success normalization pass of the standard pre-blast path
(part_000 lines 1390-1432) with the style seed and the emoji setting as
fixed parameters: the composition of the conditional emoji strip of the raw
text, the section-label and blank-line normalization of
normalizeAiPreblast, the conditional final emoji strip, and the
markdown-image-line removal. -/
def normalizePre (cfg : PreCfg) (styleSeed : Chars) (useEmojis : Bool)
    (x : Chars) : Chars :=
  let cleaned :=
    if cfg.minimalEmojis || cfg.forceNoEmojis || !useEmojis then stripEmojis x else x
  let normalized := normalizeAiPreblast cleaned cfg.address [] styleSeed useEmojis
  stripMarkdownImageLines
    (if cfg.forceNoEmojis || !useEmojis then stripEmojis normalized else normalized)

/-- handleGenerateAI of the pre-blast view (part_000 lines 1329-1453),
modelled past its input guards (forceNoAiAo false and a non-empty Q name,
the configurations under which the orchestration runs at all).  One style
seed is drawn by buildStyleSeed() at line 1351 and passed in as styleSeed;
jpRand is the stock-hook draw of the Jurassic Park AI formatter.  The catch
arm covers every rejection of the external path and never rethrows. -/
def preblastHandle (ext : ExtBehavior) (cfg : PreCfg) (styleSeed : Chars)
    (jpRand : Nat) (t0 : ℚ) : PreOutcome :=
  let o := generatePreblastSvc ext 0 t0
  match o.res with
  | .ok raw => .generated (preGeneratedText cfg styleSeed jpRand raw)
  | .error _ => .fallback (preFallbackText cfg styleSeed)

/-! ### The backblast orchestration handler (BackblastGeneratorView.tsx
lines 3184-3410) -/

/-- A thrown JavaScript runtime error that is not a GemErr: evaluating an
identifier with no binding in any enclosing scope throws a ReferenceError
naming the identifier. -/
inductive JsThrow
  | referenceError (ident : Chars)
deriving DecidableEq

/-- handleGenerateAI of the backblast view (BackblastGeneratorView.tsx lines
3184-3410), modelled past its input guards.  The identifiers styleSeed and
useEmojis are declared nowhere in the scope of this function (the only
declarations in the file are locals of formatBackblastNoAI_Standard, line
2557, and of handleFormatNoAI, line 3431), so by JavaScript scoping their
first evaluation throws a ReferenceError: at line 3340 (Jurassic Park
success arm) or 3351 (standard success arm) inside the try block, after
which the catch arm reaches line 3378 or 3397 and throws again, this time
out of the handler; when the external path itself rejects, the catch arm
throws the same ReferenceError directly.  The pair returned is the
handler outcome and the number of external calls made. -/
def handleGenerateAIBackblast (ext : ExtBehavior) (t0 : ℚ) :
    Except JsThrow Chars × Nat :=
  let o := generateWithRetry ext t0
  match o.res with
  | .ok _ => (.error (.referenceError "styleSeed".data), o.trace.length)
  | .error _ => (.error (.referenceError "styleSeed".data), o.trace.length)

/-! ## Theorems -/

/-- Claim C3, counterexample.  The claim asserts that the spec rule (status
429 or 503, or one of the eight substrings) governs retry at both retry
sites.  The error whose message is "rate limited" is transient under the
spec rule and under the service classifier, but the view-layer retry loop
does not classify it as transient. -/
theorem C3_classifier_counterexample :
    specTransient ⟨none, "rate limited".data⟩ = true ∧
    isRetryable ⟨none, "rate limited".data⟩ = true ∧
    viewTransient ⟨none, "rate limited".data⟩ = false := by
  decide

/-- Claim C3, amended: the service-layer classifier isRetryable implements
the spec rule exactly; the view-layer transient test is strictly narrower
(status 429 or 503, or only the substrings 429, 503, overload, quota), so
every error the view retries is also retried by the service layer, but not
conversely. -/
theorem C3_classifier_amended :
    (∀ e, isRetryable e = specTransient e) ∧
    (∀ e, viewTransient e = true → isRetryable e = true) := by
  constructor
  · intro e
    obtain ⟨st, msg⟩ := e
    by_cases h : msg = []
    · subst h
      by_cases h1 : st = some 429 <;> by_cases h2 : st = some 503 <;>
        simp [isRetryable, specTransient, normalizeErrMsg, h1, h2] <;> decide
    · simp [isRetryable, specTransient, normalizeErrMsg, h]
  · intro e h
    have hm : e.message ≠ [] → normalizeErrMsg e = e.message := by
      intro hne; simp [normalizeErrMsg, hne]
    simp only [viewTransient, Bool.or_eq_true] at h
    simp only [isRetryable, Bool.or_eq_true]
    rcases h with ((((h | h) | h) | h) | h) | h
    · have hne : e.message ≠ [] := by
        intro hz; rw [hz] at h; exact absurd h (by decide)
      rw [hm hne]; tauto
    · have hne : e.message ≠ [] := by
        intro hz; rw [hz] at h; exact absurd h (by decide)
      rw [hm hne]; tauto
    · have hne : e.message ≠ [] := by
        intro hz; rw [hz] at h; exact absurd h (by decide)
      rw [hm hne]; tauto
    · have hne : e.message ≠ [] := by
        intro hz; rw [hz] at h; exact absurd h (by decide)
      rw [hm hne]; tauto
    · tauto
    · tauto

/-- Claim C3, witness for the amended theorem at a concrete error. -/
theorem C3_classifier_witness :
    viewTransient ⟨some 429, "x".data⟩ = true ∧
    isRetryable ⟨some 429, "x".data⟩ = true :=
  ⟨by decide, C3_classifier_amended.2 ⟨some 429, "x".data⟩ (by decide)⟩

/-- Claim C5, counterexample.  The claim asserts that the delay before retry
attempt n is min(BASE_DELAY times 1.6 to the n, 20000) clamped to the
remaining budget at every retry site.  At the view-layer site (baseDelayMs =
1000) the delay before attempt 2 with no elapsed time is 4000 (the factor is
2), while the claimed formula gives 2560. -/
theorem C5_backoff_counterexample :
    viewWait 2 0 = 4000 ∧ specDelay 1000 2 0 = 2560 ∧
    viewWait 2 0 ≠ specDelay 1000 2 0 := by
  norm_num [viewWait, viewBackoff, specDelay, qmin]

/-- Claim C5, amended: the service retry site awaits exactly the claimed
delay with BASE_DELAY = 2000 and exponent base 1.6 (attempt counted from 0),
while the view retry site awaits min(1000 times 2 to the attempt, 20000)
clamped to the remaining budget (attempt counted from 1). -/
theorem C5_backoff_amended :
    (∀ a elapsed, svcWait a elapsed = specDelay 2000 a elapsed) ∧
    (∀ a elapsed, viewWait a elapsed =
      qmin (qmin (1000 * (2 : ℚ) ^ a) 20000) (60000 - elapsed)) := by
  exact ⟨fun a e => rfl, fun a e => rfl⟩

/-- Claim C4: a permanent (non-transient) error on the very first external
call is rethrown by the service retry loop without any retry, the view
retry loop does not retry it either, so exactly one external call is made in
total; but the backblast handler then crashes with the styleSeed
ReferenceError in its catch arm instead of resolving with the fallback
template. -/
theorem C4_permanent_short_circuit :
    (generateWithRetry (fun _ => .err ⟨none, "invalid argument".data⟩ 0) 0).trace.length = 1 ∧
    (generateWithRetry (fun _ => .err ⟨none, "invalid argument".data⟩ 0) 0).res =
      .error ⟨none, "invalid argument".data⟩ ∧
    handleGenerateAIBackblast (fun _ => .err ⟨none, "invalid argument".data⟩ 0) 0 =
      (.error (.referenceError "styleSeed".data), 1) := by
  have h1 : isRetryable ⟨none, "invalid argument".data⟩ = false := by decide
  have h2 : viewTransient ⟨none, "invalid argument".data⟩ = false := by decide
  have hsvc : retryGeminiCall (fun _ => .err ⟨none, "invalid argument".data⟩ 0) 0 0 =
      ⟨.error ⟨none, "invalid argument".data⟩, 0, [0]⟩ := by
    show svcGo _ 0 (9 + 1) 0 0 0 = _
    simp [svcGo, h1]
  have hview : generateWithRetry (fun _ => .err ⟨none, "invalid argument".data⟩ 0) 0 =
      ⟨.error ⟨none, "invalid argument".data⟩, 0, [0]⟩ := by
    show viewGo _ 0 (9 + 1) 1 0 0 = _
    simp [viewGo, generateBackblast, hsvc, h2]
  refine ⟨?_, ?_, ?_⟩ <;> simp [hview, handleGenerateAIBackblast]

/-- Claim C2, counterexample.  With an always-transient external call of
zero duration, the service retry loop schedules clamped delays whose sum
reaches the budget exactly, and then begins one more attempt at elapsed time
exactly MAX_TOTAL_MS = 60000: the trace of call start times of the full
two-layer run from clock 0 ends with a call started at 60000, so an attempt
is scheduled although the elapsed time has reached the budget. -/
theorem C2_budget_edge_counterexample :
    (generateWithRetry (fun _ => .err ⟨some 429, "rate".data⟩ 0) 0).trace =
      [0, 2000, 5200, 10320, 18512, 158096/5, 258096/5, 60000] ∧
    (60000 : ℚ) ∈ (generateWithRetry (fun _ => .err ⟨some 429, "rate".data⟩ 0) 0).trace := by
  have hr : isRetryable ⟨some 429, "rate".data⟩ = true := by decide
  have hsvc : retryGeminiCall (fun _ => .err ⟨some 429, "rate".data⟩ 0) 0 0 =
      ⟨.error exhaustErr, 60000,
        [0, 2000, 5200, 10320, 18512, 158096/5, 258096/5, 60000]⟩ := by
    show svcGo _ 0 (9 + 1) 0 0 0 = _
    norm_num [svcGo, svcWait, svcBackoff, qmin, hr]
  have hview : generateWithRetry (fun _ => .err ⟨some 429, "rate".data⟩ 0) 0 =
      ⟨.error exhaustErr, 60000,
        [0, 2000, 5200, 10320, 18512, 158096/5, 258096/5, 60000]⟩ := by
    show viewGo _ 0 (9 + 1) 1 0 0 = _
    norm_num [viewGo, generateBackblast, hsvc, exhaustErr]
  rw [hview]
  norm_num

/-- The partial sums of the service backoffs. -/
def svcBackoffSum : Nat → ℚ
  | 0 => 0
  | a + 1 => svcBackoffSum a + svcBackoff a

theorem svcBackoff_nonneg (a : Nat) : 0 ≤ svcBackoff a := by
  rw [svcBackoff, qmin_eq]
  have h1 : (0 : ℚ) ≤ 2000 * (8 / 5 : ℚ) ^ a := by positivity
  exact le_min h1 (by norm_num)

theorem svcBackoffSum_ten : (60000 : ℚ) ≤ svcBackoffSum 10 := by
  norm_num [svcBackoffSum, svcBackoff, qmin]

/-- The budget invariant of the service retry loop under an always-transient
external call with nonnegative durations: the loop exits by throwing the
exhaustion error, its exit clock is at least 60000 past its start, it makes
at most fuel calls, and every call starts no later than start + 60000. -/
theorem svcGo_transient_bounds (errF : Nat → GemErr) (durF : Nat → ℚ)
    (hr : ∀ j, isRetryable (errF j) = true) (hd : ∀ j, 0 ≤ durF j)
    (start : ℚ) :
    ∀ fuel attempt k t, attempt + fuel = 10 →
      min (svcBackoffSum attempt) 60000 ≤ t - start →
      t ≤ start + 60000 →
      (svcGo (fun j => .err (errF j) (durF j)) start fuel attempt k t).res = .error exhaustErr ∧
      60000 ≤ (svcGo (fun j => .err (errF j) (durF j)) start fuel attempt k t).now - start ∧
      (svcGo (fun j => .err (errF j) (durF j)) start fuel attempt k t).trace.length ≤ fuel ∧
      ∀ s ∈ (svcGo (fun j => .err (errF j) (durF j)) start fuel attempt k t).trace,
        s ≤ start + 60000 := by
  intro fuel
  induction fuel with
  | zero =>
    intro attempt k t hten hlow _
    have ha : attempt = 10 := by omega
    subst ha
    have : min (svcBackoffSum 10) 60000 = 60000 :=
      min_eq_right svcBackoffSum_ten
    refine ⟨rfl, ?_, by simp [svcGo], by simp [svcGo]⟩
    simpa [svcGo, this] using hlow
  | succ f ih =>
    intro attempt k t hten hlow hhigh
    by_cases hel : (60000 : ℚ) ≤ t + durF k - start
    · refine ⟨?_, ?_, ?_, ?_⟩ <;> simp [svcGo, hr k, hel, hhigh] <;> linarith
    · have hd1 := hd k
      have hstep : svcGo (fun j => .err (errF j) (durF j)) start (f + 1) attempt k t =
          ⟨(svcGo (fun j => .err (errF j) (durF j)) start f (attempt + 1) (k + 1)
              (t + durF k + svcWait attempt (t + durF k - start))).res,
           (svcGo (fun j => .err (errF j) (durF j)) start f (attempt + 1) (k + 1)
              (t + durF k + svcWait attempt (t + durF k - start))).now,
           t :: (svcGo (fun j => .err (errF j) (durF j)) start f (attempt + 1) (k + 1)
              (t + durF k + svcWait attempt (t + durF k - start))).trace⟩ := by
        simp [svcGo, hr k, hel]
      set t2 := t + durF k + svcWait attempt (t + durF k - start) with ht2
      have hwait_le : svcWait attempt (t + durF k - start) ≤ 60000 - (t + durF k - start) := by
        rw [svcWait, qmin_eq]; exact min_le_right _ _
      have hwait_ge : svcBackoffSum (attempt + 1) = svcBackoffSum attempt + svcBackoff attempt := rfl
      have hlow2 : min (svcBackoffSum (attempt + 1)) 60000 ≤ t2 - start := by
        have helapsed : min (svcBackoffSum attempt) 60000 ≤ t + durF k - start := by
          have := hlow; linarith
        have hsplit : t2 - start =
            (t + durF k - start) + svcWait attempt (t + durF k - start) := by
          rw [ht2]; ring
        rw [hsplit, svcWait, qmin_eq]
        rcases min_cases (svcBackoff attempt) (60000 - (t + durF k - start)) with
          ⟨hmin, _⟩ | ⟨hmin, _⟩
        · rw [hmin]
          calc min (svcBackoffSum (attempt + 1)) 60000 ≤
                min (svcBackoffSum attempt + svcBackoff attempt)
                  (60000 + svcBackoff attempt) := by
                refine min_le_min (le_of_eq hwait_ge) ?_
                have := svcBackoff_nonneg attempt
                linarith
            _ = min (svcBackoffSum attempt) 60000 + svcBackoff attempt := by
                rw [min_add_add_right]
            _ ≤ (t + durF k - start) + svcBackoff attempt := by linarith
        · rw [hmin]
          have : (t + durF k - start) + (60000 - (t + durF k - start)) = 60000 := by ring
          rw [this]
          exact min_le_right _ _
      have hhigh2 : t2 ≤ start + 60000 := by
        have : t2 ≤ t + durF k + (60000 - (t + durF k - start)) := by
          rw [ht2]; linarith
        linarith
      obtain ⟨ih1, ih2, ih3, ih4⟩ :=
        ih (attempt + 1) (k + 1) t2 (by omega) hlow2 hhigh2
      rw [hstep]
      refine ⟨ih1, ih2, ?_, ?_⟩
      · simpa using Nat.succ_le_succ ih3
      · intro s hs
        rcases List.mem_cons.mp hs with h | h
        · exact h ▸ hhigh
        · exact ih4 s h

/-- Claim C2, amended: under an always-transient external call with
nonnegative call durations (awaited delays advance the clock by exactly the
scheduled amount), the whole two-layer run makes at most 10 external calls,
every call starts no later than 60000 ms after the run start (a delay is
scheduled only while elapsed < 60000, so only a final attempt can begin
exactly at the 60000 mark), and the run ends with the service exhaustion
error, which the view layer does not retry because its own budget is then
exhausted. -/
theorem C2_attempt_budget (errF : Nat → GemErr) (durF : Nat → ℚ)
    (hr : ∀ j, isRetryable (errF j) = true) (hd : ∀ j, 0 ≤ durF j) (t0 : ℚ) :
    (generateWithRetry (fun j => .err (errF j) (durF j)) t0).trace.length ≤ 10 ∧
    (∀ s ∈ (generateWithRetry (fun j => .err (errF j) (durF j)) t0).trace,
      s ≤ t0 + 60000) ∧
    (generateWithRetry (fun j => .err (errF j) (durF j)) t0).res = .error exhaustErr := by
  obtain ⟨h1, h2, h3, h4⟩ :=
    svcGo_transient_bounds errF durF hr hd t0 10 0 0 t0 (by omega)
      (by simp [svcBackoffSum]) (by linarith)
  have h1r : (retryGeminiCall (fun j => .err (errF j) (durF j)) 0 t0).res =
      .error exhaustErr := h1
  have h2r : (60000 : ℚ) ≤
      (retryGeminiCall (fun j => .err (errF j) (durF j)) 0 t0).now - t0 := h2
  have hgb : generateBackblast (fun j => .err (errF j) (durF j)) 0 t0 =
      retryGeminiCall (fun j => .err (errF j) (durF j)) 0 t0 := by
    simp only [generateBackblast, h1r]
  have hview : generateWithRetry (fun j => .err (errF j) (durF j)) t0 =
      retryGeminiCall (fun j => .err (errF j) (durF j)) 0 t0 := by
    show viewGo _ t0 (9 + 1) 1 0 t0 = _
    rw [viewGo, hgb, h1r]
    exact if_pos (Or.inr (Or.inr h2r))
  rw [hview]
  exact ⟨h3, h4, h1⟩

/-- Claim C2, witness: the amended budget theorem applied to the concrete
always-429 zero-duration behavior. -/
theorem C2_attempt_budget_witness :
    (generateWithRetry (fun _ => .err ⟨some 429, "busy 429".data⟩ 0) 0).trace.length ≤ 10 ∧
    (∀ s ∈ (generateWithRetry (fun _ => .err ⟨some 429, "busy 429".data⟩ 0) 0).trace,
      s ≤ 0 + 60000) ∧
    (generateWithRetry (fun _ => .err ⟨some 429, "busy 429".data⟩ 0) 0).res =
      .error exhaustErr := by
  have hcl : isRetryable ⟨some 429, "busy 429".data⟩ = true := by decide
  exact C2_attempt_budget (fun _ => ⟨some 429, "busy 429".data⟩) (fun _ => 0)
    (fun _ => hcl) (fun _ => le_refl 0) 0

/-- Claim C9: the no-AI standard backblast formatter is deterministic: its
output does not depend on the entropy consumed by its internal
buildStyleSeed() draw, so two calls with identical arguments and ambient
configuration produce identical text. -/
theorem C9_formatter_determinism (amb : BbAmbient) (args : BbNoAiArgs)
    (e1 e2 : Chars) :
    formatBackblastNoAI_Standard amb args e1 =
      formatBackblastNoAI_Standard amb args e2 := rfl

/-- Claim C10, counterexample.  The claim states that the standard-layout
total is the number of non-starsky roster entries; on a roster holding one
non-starsky entry with an empty name (the shape the form seeds by default),
countStandardTotal reports 0 while the roster has 1 non-starsky entry. -/
theorem C10_total_counterexample :
    countStandardTotal [⟨[], true, false, false, false, false⟩] = 0 ∧
    (([⟨[], true, false, false, false, false⟩] : List Pax).filter
      (fun p => !p.starsky)).length = 1 := by
  decide

/-- Claim C10, amended: the view-layer standard total counts the non-starsky
entries whose stripped name is non-empty; the service-layer total counts all
non-starsky entries of the roster it receives; and the Jurassic Park total is
the number of distinct non-empty cleaned (at-stripped, trimmed, lower-cased)
names over the non-starsky entries of the run, ruck and MPC sub-groups, so a
name occurring in two sub-groups is counted once. -/
theorem C10_totals_amended :
    (∀ pax : List Pax, countStandardTotal pax =
      ((pax.filter (fun p => !p.starsky)).filter
        (fun p => !(stripAt p.name).isEmpty)).length) ∧
    (∀ pax : List Pax, svcTotalPax pax = (pax.filter (fun p => !p.starsky)).length) ∧
    (∀ (run ruck : List JpRunRuck) (mpc : List JpMpc), countJpTotal run ruck mpc =
      (((run.filter (fun p => !p.starsky)).map (fun p => cleanJpName p.name) ++
        (ruck.filter (fun p => !p.starsky)).map (fun p => cleanJpName p.name) ++
        (mpc.filter (fun p => !p.starsky)).map (fun p => cleanJpName p.name)).filter
          (fun n => !n.isEmpty)).toFinset.card) := by
  refine ⟨?_, fun _ => rfl, ?_⟩
  · intro pax
    simp only [countStandardTotal, List.filter_filter]
  · intro run ruck mpc
    rw [List.card_toFinset]
    rfl

/-- Two selectors whose predicates exclude each other never list the same
stripped name when the roster names are distinct. -/
theorem selNameDisjoint (pax : List Pax)
    (hnd : (pax.map (fun p => stripAt p.name)).Nodup)
    (f g : Pax → Bool) (hfg : ∀ p, f p = true → g p = true → False) (n : Chars) :
    ¬((∃ p ∈ pax.filter f, stripAt p.name = n) ∧
      ∃ q ∈ pax.filter g, stripAt q.name = n) := by
  rintro ⟨⟨p, hp, hpn⟩, q, hq, hqn⟩
  rw [List.mem_filter] at hp hq
  have hpq : p = q := by
    apply List.inj_on_of_nodup_map hnd <;> first
      | exact hp.1
      | exact hq.1
      | rw [hpn, hqn]
  exact hfg p hp.2 (hpq ▸ hq.2)

/-- Claim C8, counterexample.  The claim's "for every roster, no name is
duplicated across sections" fails: formatPaxSectionStandard does not dedupe
by name, so a roster with two entries named "Alpha" — one TD, one BD-only —
renders "@Alpha [TD]" in the TD section and "@Alpha" in the BD section, the
same stripped name in two different sections. -/
theorem C8_tier_counterexample :
    formatPaxSectionStandard (fun _ => none)
        [⟨"Alpha".data, false, false, true, false, false⟩,
         ⟨"Alpha".data, true, false, false, false, false⟩] =
      "@Alpha [TD]\n@Alpha".data ∧
    (tdSel [⟨"Alpha".data, false, false, true, false, false⟩,
            ⟨"Alpha".data, true, false, false, false, false⟩]).map
        (fun p => stripAt p.name) = ["Alpha".data] ∧
    (bdSel [⟨"Alpha".data, false, false, true, false, false⟩,
            ⟨"Alpha".data, true, false, false, false, false⟩]).map
        (fun p => stripAt p.name) = ["Alpha".data] := by
  decide

/-- Claim C8, amended: in the standard roster rendering, a starsky attendee
is listed only in the starsky section regardless of tier flags; a
non-starsky attendee is listed exactly in the section of their highest
qualifying tier (TD over DD over BD); and PROVIDED the roster's stripped
names are pairwise distinct, no stripped name occurs in two different
sections.  Without that proviso the no-duplication part fails (see the
counterexample): the formatter keeps per-entry exclusivity but does not
dedupe entries that share a name. -/
theorem C8_tier_exclusivity (pax : List Pax)
    (hnd : (pax.map (fun p => stripAt p.name)).Nodup) :
    (∀ p ∈ pax, p.starsky = true →
      p ∈ starskySel pax ∧ p ∉ tdSel pax ∧ p ∉ ddSel pax ∧ p ∉ bdSel pax) ∧
    (∀ p ∈ pax, p.starsky = false → p.td = true →
      p ∈ tdSel pax ∧ p ∉ ddSel pax ∧ p ∉ bdSel pax ∧ p ∉ starskySel pax) ∧
    (∀ p ∈ pax, p.starsky = false → p.td = false → p.dd = true →
      p ∈ ddSel pax ∧ p ∉ tdSel pax ∧ p ∉ bdSel pax ∧ p ∉ starskySel pax) ∧
    (∀ p ∈ pax, p.starsky = false → p.td = false → p.dd = false → p.bd = true →
      p ∈ bdSel pax ∧ p ∉ tdSel pax ∧ p ∉ ddSel pax ∧ p ∉ starskySel pax) ∧
    (∀ n : Chars,
      ¬((∃ p ∈ tdSel pax, stripAt p.name = n) ∧ ∃ q ∈ ddSel pax, stripAt q.name = n) ∧
      ¬((∃ p ∈ tdSel pax, stripAt p.name = n) ∧ ∃ q ∈ bdSel pax, stripAt q.name = n) ∧
      ¬((∃ p ∈ ddSel pax, stripAt p.name = n) ∧ ∃ q ∈ bdSel pax, stripAt q.name = n) ∧
      ¬((∃ p ∈ starskySel pax, stripAt p.name = n) ∧
        ((∃ q ∈ tdSel pax, stripAt q.name = n) ∨ (∃ q ∈ ddSel pax, stripAt q.name = n) ∨
         ∃ q ∈ bdSel pax, stripAt q.name = n))) := by
  refine ⟨?_, ?_, ?_, ?_, ?_⟩
  · intro p hp hs
    simp [starskySel, tdSel, ddSel, bdSel, List.mem_filter, hp, hs]
  · intro p hp hs ht
    simp [starskySel, tdSel, ddSel, bdSel, List.mem_filter, hp, hs, ht]
  · intro p hp hs ht hd
    simp [starskySel, tdSel, ddSel, bdSel, List.mem_filter, hp, hs, ht, hd]
  · intro p hp hs ht hd hb
    simp [starskySel, tdSel, ddSel, bdSel, List.mem_filter, hp, hs, ht, hd, hb]
  · intro n
    refine ⟨?_, ?_, ?_, ?_⟩
    · exact selNameDisjoint pax hnd _ _
        (fun p h1 h2 => by simp_all [Bool.and_eq_true]) n
    · exact selNameDisjoint pax hnd _ _
        (fun p h1 h2 => by simp_all [Bool.and_eq_true]) n
    · exact selNameDisjoint pax hnd _ _
        (fun p h1 h2 => by simp_all [Bool.and_eq_true]) n
    · rintro ⟨hstar, htier⟩
      rcases htier with h | h | h
      · exact selNameDisjoint pax hnd _ _
          (fun p h1 h2 => by simp_all [Bool.and_eq_true]) n ⟨hstar, h⟩
      · exact selNameDisjoint pax hnd _ _
          (fun p h1 h2 => by simp_all [Bool.and_eq_true]) n ⟨hstar, h⟩
      · exact selNameDisjoint pax hnd _ _
          (fun p h1 h2 => by simp_all [Bool.and_eq_true]) n ⟨hstar, h⟩

/-- Claim C8, witness: an attendee qualifying for all three tiers is listed
in the TD section only, and a starsky attendee only in the starsky section,
on a concrete two-entry roster. -/
theorem C8_tier_exclusivity_witness :
    (⟨"Alpha".data, true, true, true, false, false⟩ : Pax) ∈
      tdSel [⟨"Alpha".data, true, true, true, false, false⟩,
             ⟨"Beta".data, true, false, false, false, true⟩] ∧
    (⟨"Alpha".data, true, true, true, false, false⟩ : Pax) ∉
      ddSel [⟨"Alpha".data, true, true, true, false, false⟩,
             ⟨"Beta".data, true, false, false, false, true⟩] ∧
    (⟨"Alpha".data, true, true, true, false, false⟩ : Pax) ∉
      bdSel [⟨"Alpha".data, true, true, true, false, false⟩,
             ⟨"Beta".data, true, false, false, false, true⟩] ∧
    (⟨"Alpha".data, true, true, true, false, false⟩ : Pax) ∉
      starskySel [⟨"Alpha".data, true, true, true, false, false⟩,
             ⟨"Beta".data, true, false, false, false, true⟩] :=
  (C8_tier_exclusivity
    [⟨"Alpha".data, true, true, true, false, false⟩,
     ⟨"Beta".data, true, false, false, false, true⟩] (by decide)).2.1
    ⟨"Alpha".data, true, true, true, false, false⟩ (by decide) rfl rfl

/-- Claim C1, refuted by the code: the backblast orchestration handler
handleGenerateAI (BackblastGeneratorView.tsx lines 3184-3410) throws a
ReferenceError to its caller on EVERY run, whatever the external call does.
Its success arm (line 3340) and its catch arm (lines 3378 and 3397) both
evaluate the identifiers styleSeed and useEmojis, which have no binding in
any enclosing scope (the only declarations are locals of other functions at
lines 2557 and 3431), so neither arm resolves; no run produces post text at
all, let alone a non-empty fallback. -/
theorem C1_orchestration_throws :
    ∀ (ext : ExtBehavior) (t0 : ℚ),
      (handleGenerateAIBackblast ext t0).1 =
        Except.error (JsThrow.referenceError "styleSeed".data) := by
  intro ext t0
  simp only [handleGenerateAIBackblast]
  cases (generateWithRetry ext t0).res <;> rfl

/-- Claim C6: in the pre-blast handler (part_000 lines 1329-1453) one style
seed is generated before the try block and the same value seeds both the
AI-path normalization and the catch-path template formatter, so on any run
where the external path fails the outcome is the formatter output on that
run's seed; but in the backblast handler (BackblastGeneratorView.tsx lines
3184-3410) the claim fails: the identifier styleSeed is unbound at its use
sites, so both the AI-success arm and the fallback arm throw a
ReferenceError instead of producing any seed-consistent text. -/
theorem C6_seed_consistency :
    (∀ (ext : ExtBehavior) (cfg : PreCfg) (styleSeed : Chars) (jpRand : Nat) (t0 : ℚ)
      (e : GemErr), (generatePreblastSvc ext 0 t0).res = Except.error e →
        preblastHandle ext cfg styleSeed jpRand t0 =
          PreOutcome.fallback (preFallbackText cfg styleSeed)) ∧
    (∀ (ext : ExtBehavior) (t0 : ℚ),
      handleGenerateAIBackblast ext t0 =
        (Except.error (JsThrow.referenceError "styleSeed".data),
         (generateWithRetry ext t0).trace.length)) := by
  constructor
  · intro ext cfg styleSeed jpRand t0 e h
    simp only [preblastHandle, h]
  · intro ext t0
    simp only [handleGenerateAIBackblast]
    cases (generateWithRetry ext t0).res <;> rfl

/-- Claim C6, witness: with an external call that always throws a permanent
status-400 error, the pre-blast handler started with style seed "seed"
resolves with the template formatter's output on that same seed. -/
theorem C6_seed_consistency_witness :
    preblastHandle (fun _ => .err ⟨some 400, "bad".data⟩ 5)
        ⟨false, false, false, [], [], [], [], [], [], [], [], [], [], false, []⟩
        "seed".data 0 0 =
      PreOutcome.fallback (preFallbackText
        ⟨false, false, false, [], [], [], [], [], [], [], [], [], [], false, []⟩
        "seed".data) :=
  C6_seed_consistency.1 (fun _ => .err ⟨some 400, "bad".data⟩ 5)
    ⟨false, false, false, [], [], [], [], [], [], [], [], [], [], false, []⟩
    "seed".data 0 0 ⟨some 400, "bad".data⟩ rfl

set_option maxRecDepth 100000 in
/-- Claim C7, counterexample.  The post-success normalization pass of the
standard pre-blast path is not idempotent: with style seed "seed" (whose
DD/TD variant index is 3) and emojis off, the input
"DD (Comment Below)\nHello" normalizes to
"DD (Comment Below)\nTD (Comment Below)\nHello", but normalizing that result
again inserts a blank line after the reinserted block (the reinsertion rule
of part_000 line 447 emits "\n\n" after the TD line when more text follows),
so the second pass differs from the first. -/
theorem C7_normalize_counterexample :
    normalizePre ⟨false, false, false, [], [], [], [], [], [], [], [], [], [], false, []⟩
        "seed".data false
        (normalizePre
          ⟨false, false, false, [], [], [], [], [], [], [], [], [], [], false, []⟩
          "seed".data false "DD (Comment Below)\nHello".data) ≠
      normalizePre ⟨false, false, false, [], [], [], [], [], [], [], [], [], [], false, []⟩
        "seed".data false "DD (Comment Below)\nHello".data := by
  decide

/-- Claim C7, amended: the emoji-handling component of the normalization is
idempotent — stripEmojis is a filter and so equals its own square, and the
backblast emoji pass with emojis off (the branch the formatter takes when
the seed disables emojis) is likewise idempotent.  The full pre-blast pass
is not idempotent (see the counterexample): the DD/TD comment-block
reinsertion can add a blank line on a second application. -/
theorem C7_normalize_amended :
    (∀ x : Chars, stripEmojis (stripEmojis x) = stripEmojis x) ∧
    (∀ (x seed : Chars),
      normalizeBackblastEmojis (normalizeBackblastEmojis x seed false) seed false =
        normalizeBackblastEmojis x seed false) := by
  constructor
  · intro x
    simp [stripEmojis, List.filter_filter]
  · intro x seed
    show stripEmojis (stripEmojis x) = stripEmojis x
    simp [stripEmojis, List.filter_filter]

end F3



